import Mathlib

/-!
Shallow embedding of `scripts/generate_data.py`, a synthetic banking-event
data generator.  The script builds JSON records via five per-source factory
functions, writes them as newline-delimited JSON into day/source partition
directories, and is driven by a CLI loop that splits a per-day event total
across the five sources.

Modelling conventions:
  * Python dicts that become JSON objects are association lists
    `List (String × Json)` in insertion order (every record the script
    builds has pairwise-distinct keys, and the writer's backfill appends).
  * Python floats are modelled as rationals `ℚ`; `round(x, 2)` becomes
    rounding to an integer multiple of 1/100.
  * Randomness is modelled as explicit state made of two independent
    streams of naturals, each with a cursor: the process-wide `random`
    generator (fixed by `random.seed(42)`), from which every `random.*`
    primitive (`randint`, `choice`, `random.choices`, `uniform`,
    `triangular`) draws, and the OS entropy read by `uuid.uuid4()` via
    `os.urandom`, which `random.seed` does not fix.  Distribution shapes
    are irrelevant to every claim; what the embedding preserves is the
    support of each primitive (e.g. `uniform lo hi ∈ [lo, hi)`,
    `choice xs ∈ xs`), the deterministic state threading, and which of
    the two entropy sources each value comes from.
  * Filesystem writes are modelled by returning the list of files the call
    would create: directory components, file name, and the list of records
    written as lines.
-/

/-- JSON values as produced by the generator (numbers as rationals). -/
inductive Json where
  | null : Json
  | bool : Bool → Json
  | num : ℚ → Json
  | str : String → Json
  deriving DecidableEq, Repr

/-- A record: a JSON object as an association list in insertion order. -/
abbrev Rec := List (String × Json)

/-- Look up the value of key `k` in a record (first occurrence). -/
def getVal (r : Rec) (k : String) : Option Json :=
  match r with
  | [] => none
  | (k', v) :: rest => if k' = k then some v else getVal rest k

/-- Python's `k in rec` on the record dict. -/
def hasKey (r : Rec) (k : String) : Bool :=
  match r with
  | [] => false
  | (k', _) :: rest => if k' = k then true else hasKey rest k

/-- The process's random state, made explicit.  `stream`/`pos` model the
process-wide `random` module generator: `random.seed(42)` fixes `stream`,
so two equally-seeded runs see the same `stream`.  `urandom`/`upos` model
the OS entropy that `uuid.uuid4()` reads via `os.urandom`: it is NOT
fixed by `random.seed`, so two equally-seeded runs can see different
`urandom` streams. -/
structure Rng where
  stream : ℕ → ℕ
  pos : ℕ
  urandom : ℕ → ℕ
  upos : ℕ

/-- Pull one raw natural off the stream. -/
def nextNat (g : Rng) : ℕ × Rng :=
  (g.stream g.pos, { g with pos := g.pos + 1 })

/-- A draw uniform over `{0, …, n-1}` (for `n ≥ 1`). -/
def drawNat (g : Rng) (n : ℕ) : ℕ × Rng :=
  let (r, g') := nextNat g
  (r % n, g')

/-- `random.randint(a, b)`: an integer in `[a, b]` inclusive. -/
def randint (a b : ℤ) (g : Rng) : ℤ × Rng :=
  let (r, g') := drawNat g ((b - a + 1).toNat)
  (a + r, g')

/-- `random.choice(xs)` (`d` is returned on an empty list, which the
script never passes; Python would raise `IndexError` there). -/
def choiceD {α : Type} (xs : List α) (d : α) (g : Rng) : α × Rng :=
  let (i, g') := drawNat g xs.length
  (xs.getD i d, g')

/-- Index selection for `random.choices(xs, weights=ws)`: the first index
whose cumulative weight exceeds the draw. -/
def weightedIndex (ws : List ℕ) (r : ℕ) : ℕ :=
  match ws with
  | [] => 0
  | w :: rest => if r < w then 0 else weightedIndex rest (r - w) + 1

/-- `random.choices(xs, weights=ws)[0]`: one weighted draw. -/
def choicesW {α : Type} (xs : List α) (ws : List ℕ) (d : α) (g : Rng) :
    α × Rng :=
  let (r, g') := drawNat g (ws.foldr (· + ·) 0)
  (xs.getD (weightedIndex ws r) d, g')

/-- Granularity of the modelled `random.random()` draw. -/
def fracDenom : ℕ := 2 ^ 53

/-- `random.random()`: a rational in `[0, 1)`. -/
def fracQ (g : Rng) : ℚ × Rng :=
  let (r, g') := nextNat g
  ((r % fracDenom : ℕ) / (fracDenom : ℚ), g')

/-- `random.uniform(lo, hi)`: `lo + u * (hi - lo)` for `u ∈ [0, 1)`. -/
def uniformQ (lo hi : ℚ) (g : Rng) : ℚ × Rng :=
  let (u, g') := fracQ g
  (lo + u * (hi - lo), g')

/-- Monotone rational square-root approximation (used only inside
`triangularQ`, whose exact value no claim depends on). -/
def sqrtQ (q : ℚ) : ℚ :=
  (Nat.sqrt ((q * 10 ^ 12).floor.toNat) : ℚ) / 10 ^ 6

/-- `random.triangular(low, high, mode)` following CPython: draw
`u ∈ [0, 1)`, reflect when `u > c` with `c = (mode-low)/(high-low)`, and
return `low + (high - low) * sqrt (u * c)`. -/
def triangularQ (low high mode : ℚ) (g : Rng) : ℚ × Rng :=
  let (u, g') := fracQ g
  if high = low then (low, g')
  else
    let c := (mode - low) / (high - low)
    if u > c then (high + (low - high) * sqrtQ ((1 - u) * (1 - c)), g')
    else (low + (high - low) * sqrtQ (u * c), g')

/-- Python's `round(x, 2)`: round to a multiple of 1/100 (ties are a
half-integer choice that no claim depends on; we round half away from the
floor as Mathlib's `round` does). -/
def round2 (q : ℚ) : ℚ := ((round (100 * q) : ℤ) : ℚ) / 100

/-! ## Calendar dates

`datetime.strptime(day, "%Y-%m-%d")`, `timedelta(days=…)` subtraction and
`strftime("%Y-%m-%d")` need real Gregorian arithmetic.  We use the standard
civil-calendar/day-number correspondence (days counted from 1970-01-01). -/

/-- A civil calendar date. -/
structure Date where
  year : ℤ
  month : ℤ
  day : ℤ
  deriving DecidableEq, Repr

/-- Gregorian leap year. -/
def isLeap (y : ℤ) : Bool := y % 4 = 0 ∧ (y % 100 ≠ 0 ∨ y % 400 = 0)

/-- Last day of a month. -/
def daysInMonth (y m : ℤ) : ℤ :=
  if m = 2 then (if isLeap y then 29 else 28)
  else if m = 4 ∨ m = 6 ∨ m = 9 ∨ m = 11 then 30 else 31

/-- Day number since 1970-01-01 of a civil date (Hinnant's algorithm). -/
def daysFromCivil (dt : Date) : ℤ :=
  let y := if dt.month ≤ 2 then dt.year - 1 else dt.year
  let era := (if 0 ≤ y then y else y - 399) / 400
  let yoe := y - era * 400
  let doy := (153 * (dt.month + (if dt.month > 2 then -3 else 9)) + 2) / 5
    + dt.day - 1
  let doe := yoe * 365 + yoe / 4 - yoe / 100 + doy
  era * 146097 + doe - 719468

/-- Civil date of a day number since 1970-01-01 (Hinnant's algorithm). -/
def civilFromDays (z0 : ℤ) : Date :=
  let z := z0 + 719468
  let era := (if 0 ≤ z then z else z - 146096) / 146097
  let doe := z - era * 146097
  let yoe := (doe - doe / 1460 + doe / 36524 - doe / 146096) / 365
  let y := yoe + era * 400
  let doy := doe - (365 * yoe + yoe / 4 - yoe / 100)
  let mp := (5 * doy + 2) / 153
  let d := doy - (153 * mp + 2) / 5 + 1
  let m := mp + (if mp < 10 then 3 else -9)
  ⟨if m ≤ 2 then y + 1 else y, m, d⟩

/-- Left-pad a numeral string with zeros to width `w`. -/
def padZeros (w : ℕ) (s : String) : String :=
  if s.length < w then String.mk (List.replicate (w - s.length) '0') ++ s
  else s

/-- `strftime("%Y-%m-%d")` for a civil date (years of this script are
four-digit). -/
def formatDate (dt : Date) : String :=
  padZeros 4 (toString dt.year.toNat) ++ "-"
    ++ padZeros 2 (toString dt.month.toNat) ++ "-"
    ++ padZeros 2 (toString dt.day.toNat)

/-- Split a character list at `-` separators. -/
def splitDash : List Char → List (List Char)
  | [] => [[]]
  | c :: rest =>
    let r := splitDash rest
    if c = '-' then [] :: r
    else (c :: r.headI) :: r.tail

/-- All-digits test for a parsed field. -/
def allDigits (cs : List Char) : Bool :=
  decide (cs ≠ []) && cs.all (fun c => c.isDigit)

/-- Decimal value of a digit string. -/
def digitsToNat (cs : List Char) : ℕ :=
  cs.foldl (fun a c => 10 * a + (c.toNat - '0'.toNat)) 0

/-- `datetime.strptime(s, "%Y-%m-%d")`: split on `-`, read the three
fields, and validate the month/day ranges; `none` models the `ValueError`
that aborts the Python process. -/
def parseDate (s : String) : Option Date :=
  match splitDash s.toList with
  | [ys, ms, ds] =>
    if allDigits ys && allDigits ms && allDigits ds then
      let y : ℤ := digitsToNat ys ; let m : ℤ := digitsToNat ms
      let d : ℤ := digitsToNat ds
      if 1 ≤ m ∧ m ≤ 12 ∧ 1 ≤ d ∧ d ≤ daysInMonth y m then
        some ⟨y, m, d⟩
      else none
    else none
  | _ => none

/-- `HH:MM:SS` of a second-of-day. -/
def formatTime (secs : ℤ) : String :=
  padZeros 2 (toString (secs / 3600).toNat) ++ ":"
    ++ padZeros 2 (toString ((secs % 3600) / 60).toNat) ++ ":"
    ++ padZeros 2 (toString (secs % 60).toNat)

/-! ## Constants of the script (`SOURCES` … `GL_ACCOUNTS`) -/

def SOURCES : List String := ["payments", "billing", "crm", "erp", "support"]

def CURRENCIES : List String := ["USD"]

def COUNTRIES : List String := ["US", "CA", "GB", "DE", "FR", "IN", "AU", "SG"]

def CARD_NETWORKS : List String := ["VISA", "MASTERCARD", "AMEX"]

def POS_ENTRY_MODES : List String :=
  ["chip", "contactless", "magstripe", "ecommerce"]

def PAYMENT_CHANNELS : List String :=
  ["ach_credit", "ach_debit", "wire_transfer", "card_auth",
   "card_settlement", "zelle"]

def MCCS : List (String × String) :=
  [("5411", "Grocery"), ("5812", "Restaurant"), ("5732", "Electronics"),
   ("4814", "Telecom"), ("5999", "Specialty Retail"), ("6011", "ATM")]

def SUPPORT_CATEGORIES : List String :=
  ["chargeback", "card_stolen", "login_issue", "payment_failed",
   "address_change", "refund_request"]

def SUPPORT_PRIORITIES : List String := ["low", "medium", "high", "urgent"]

def CRM_EVENTS : List String :=
  ["kyc_verified", "kyc_pending", "kyc_refresh_due", "address_update",
   "phone_update", "account_locked", "login"]

def ERP_JOURNALS : List String :=
  ["payments_settlement", "card_interchange", "fees_accrual", "refunds",
   "chargebacks", "revenue_recognition"]

def GL_ACCOUNTS : List String :=
  ["1000-Cash", "1100-Receivables", "2000-DepositsLiability",
   "4000-InterchangeRevenue", "5000-FeesExpense", "5100-Refunds"]

/-! ## Identifier and field helpers of the script -/

def DIGIT_CHARS : List Char := "0123456789".toList

def HEX_CHARS : List Char := "0123456789abcdef".toList

def UPPER_CHARS : List Char := "ABCDEFGHIJKLMNOPQRSTUVWXYZ".toList

def UPPER_ALNUM_CHARS : List Char :=
  "ABCDEFGHIJKLMNOPQRSTUVWXYZ0123456789".toList

/-- Draw `k` characters uniformly from `alphabet` (one stream draw per
character, as in `random.choice(string)` / `str(random.randint(0,9))`). -/
def charDraws (alphabet : List Char) : ℕ → Rng → List Char × Rng
  | 0, g => ([], g)
  | k + 1, g =>
    let (c, g') := choiceD alphabet 'x' g
    let (rest, g'') := charDraws alphabet k g'
    (c :: rest, g'')

/-- Pull one raw natural off the OS-entropy stream (`os.urandom`). -/
def nextUrandom (g : Rng) : ℕ × Rng :=
  (g.urandom g.upos, { g with upos := g.upos + 1 })

/-- Draw `k` hex digits from the OS-entropy stream. -/
def urandomHex : ℕ → Rng → List Char × Rng
  | 0, g => ([], g)
  | k + 1, g =>
    let (r, g') := nextUrandom g
    let (rest, g'') := urandomHex k g'
    (HEX_CHARS.getD (r % 16) 'x' :: rest, g'')

/-- `str(uuid.uuid4())`: 32 random hex digits in 8-4-4-4-12 layout (the
fixed version/variant nibbles of a real UUID4 are cosmetic and unused).
CPython's `uuid4` reads `os.urandom`, which `random.seed` does not fix,
so these digits come from the `urandom` stream, not the seeded one. -/
def uuid4 (g : Rng) : String × Rng :=
  let (cs, g') := urandomHex 32 g
  (String.mk (cs.take 8) ++ "-" ++ String.mk ((cs.drop 8).take 4) ++ "-"
      ++ String.mk ((cs.drop 12).take 4) ++ "-"
      ++ String.mk ((cs.drop 16).take 4) ++ "-" ++ String.mk (cs.drop 20),
    g')

/-- `strptime` of the day argument.  A malformed day makes the Python
process abort inside `rand_ts_for_day`; records therefore only ever exist
for parseable days, and the fallback date here is never observable. -/
def dayStart (day_str : String) : Date := (parseDate day_str).getD ⟨1900, 1, 1⟩

/-- `rand_ts_for_day`: the day's start plus `randint(0, 86399)` seconds,
kept as (date, second-of-day) — the offset never crosses midnight. -/
def rand_ts_for_day (day_str : String) (g : Rng) : (Date × ℤ) × Rng :=
  let (s, g') := randint 0 86399 g
  ((dayStart day_str, s), g')

/-- `ts.isoformat() + "Z"` for a (date, second-of-day) timestamp. -/
def isoZ (ts : Date × ℤ) : String :=
  formatDate ts.1 ++ "T" ++ formatTime ts.2 ++ "Z"

/-- `base_record(day_str, source)`. -/
def base_record (day_str source : String) (g : Rng) : Rec × Rng :=
  let (ts, g1) := rand_ts_for_day day_str g
  let (eid, g2) := uuid4 g1
  let (uid, g3) := randint 1000 500000 g2
  let (cur, g4) := choiceD CURRENCIES "" g3
  ([("event_id", .str eid), ("user_id", .num (uid : ℚ)),
    ("currency", .str cur), ("source_system", .str source),
    ("timestamp", .str (isoZ ts))], g4)

/-- `rand_amount(lo, hi, purchase)`. -/
def rand_amount (lo hi : ℚ) (purchase : Bool) (g : Rng) : ℚ × Rng :=
  if purchase then
    let (t, g') := triangularQ 5 60 300 g
    (round2 t, g')
  else
    let (u, g') := uniformQ lo hi g
    (round2 u, g')

/-- `nine_digits()`. -/
def nine_digits (g : Rng) : String × Rng :=
  let (cs, g') := charDraws DIGIT_CHARS 9 g
  (String.mk cs, g')

/-- `pan_last4()`. -/
def pan_last4 (g : Rng) : String × Rng :=
  let (cs, g') := charDraws DIGIT_CHARS 4 g
  (String.mk cs, g')

def BIC_COUNTRIES : List String :=
  ["US", "GB", "DE", "FR", "CA", "IN", "AU", "SG"]

/-- `swift_bic()`: 4 letters + country pair + 2 alphanumerics. -/
def swift_bic (g : Rng) : String × Rng :=
  let (bank, g1) := charDraws UPPER_CHARS 4 g
  let (ctry, g2) := choiceD BIC_COUNTRIES "" g1
  let (tail, g3) := charDraws UPPER_ALNUM_CHARS 2 g2
  (String.mk bank ++ ctry ++ String.mk tail, g3)

/-- `mask_iban()`. -/
def mask_iban (g : Rng) : String × Rng :=
  let (cs, g') := charDraws UPPER_ALNUM_CHARS 10 g
  ("****" ++ String.mk cs, g')

def MERCHANT_NAMES : List String :=
  ["Acme Stores", "MetroMart", "Cafe Aurora", "TechHub", "TelcoMax",
   "Global ATM"]

/-- `merchant()`. -/
def merchant (g : Rng) : Rec × Rng :=
  let (m, g1) := choiceD MCCS ("", "") g
  let (mid, g2) := uuid4 g1
  let (name, g3) := choiceD MERCHANT_NAMES "" g2
  let (ctry, g4) := choiceD COUNTRIES "" g3
  ([("merchant_id", .str (mid.take 8)), ("merchant_name", .str name),
    ("merchant_country", .str ctry), ("mcc", .str m.1),
    ("category", .str m.2)], g4)

/-! ## Record factories -/

/-- `gen_payments(day_str)`. -/
def gen_payments (day_str : String) (g : Rng) : Rec × Rng :=
  let (base, g1) := base_record day_str "payments" g
  let (channel, g2) :=
    choicesW PAYMENT_CHANNELS [20, 20, 10, 25, 20, 5] "" g1
  let (status, g3) :=
    choicesW ["posted", "pending", "failed"] [80, 17, 3] "" g2
  if channel = "card_auth" ∨ channel = "card_settlement" then
    let (m, g4) := merchant g3
    let (amt, g5) := rand_amount 1 500 true g4
    let (network, g6) := choiceD CARD_NETWORKS "" g5
    let (last4, g7) := pan_last4 g6
    let (present, g8) := choiceD [true, false] true g7
    let (entry, g9) := choiceD POS_ENTRY_MODES "" g8
    let (approval, g10) :=
      if status ≠ "failed" then
        let (u, g') := uuid4 g9
        (Json.str (u.take 6), g')
      else (Json.null, g9)
    let (decline, g11) :=
      if status ≠ "failed" then (Json.null, g10)
      else
        let (r, g') := choiceD
          ["insufficient_funds", "suspected_fraud", "do_not_honor"] "" g10
        (Json.str r, g')
    (base ++ [("event_type", .str channel), ("amount", .num amt),
      ("card_network", .str network), ("pan_last4", .str last4),
      ("card_present", .bool present), ("pos_entry_mode", .str entry)]
      ++ m
      ++ [("approval_code", approval), ("decline_reason", decline),
        ("status", .str status)], g11)
  else if channel = "ach_credit" ∨ channel = "ach_debit" then
    let (amt, g4) := rand_amount 5 2000 false g3
    let (routing, g5) := nine_digits g4
    let (acct, g6) := pan_last4 g5
    let (cp, g7) := choiceD
      ["Payroll Inc", "Utility Co", "John Smith", "Jane Doe"] "" g6
    let (trace, g8) := uuid4 g7
    (base ++ [("event_type", .str channel),
      ("amount", .num (if channel = "ach_credit" then amt else -amt)),
      ("routing_number", .str routing), ("account_last4", .str acct),
      ("counterparty_name", .str cp), ("trace_number", .str (trace.take 12)),
      ("status", .str status)], g8)
  else if channel = "wire_transfer" then
    let (amt, g4) := rand_amount 100 10000 false g3
    let (signed, g5) := choiceD [amt, -amt] 0 g4
    let (bic, g6) := swift_bic g5
    let (iban, g7) := mask_iban g6
    let (intl, g8) := choiceD [true, false] true g7
    (base ++ [("event_type", .str "wire_transfer"), ("amount", .num signed),
      ("swift_bic", .str bic), ("iban_masked", .str iban),
      ("is_international", .bool intl),
      ("fees", .num (round2 (amt * (3 / 1000)))),
      ("status", .str status)], g8)
  else
    let (amt, g4) := rand_amount 5 500 false g3
    let (signed, g5) := choiceD [amt, -amt] 0 g4
    let (cpAlias, g6) := choiceD
      ["+1-202-555-0101", "friend@example.com", "$roommate"] "" g5
    (base ++ [("event_type", .str "zelle_payment"), ("amount", .num signed),
      ("counterparty_alias", .str cpAlias), ("status", .str status)], g6)

/-- `timedelta(days=k)` addition on a (date, second-of-day) timestamp. -/
def addDays (ts : Date × ℤ) (k : ℤ) : Date × ℤ :=
  (civilFromDays (daysFromCivil ts.1 + k), ts.2)

/-- `gen_billing(day_str)`. -/
def gen_billing (day_str : String) (g : Rng) : Rec × Rng :=
  let (base, g1) := base_record day_str "billing" g
  let (status, g2) :=
    choicesW ["open", "paid", "overdue", "refunded"] [40, 45, 10, 5] "" g1
  let (inv, g3) := uuid4 g2
  let invoice_id := "INV-" ++ inv.take 8
  let (issued, g4) := rand_ts_for_day day_str g3
  let (dueDays, g5) := choiceD [(7 : ℤ), 14, 30] 0 g4
  let due := addDays issued dueDays
  let (amt, g6) := rand_amount 20 2000 false g5
  let (paid, g7) :=
    if status = "paid" ∨ status = "refunded" then (amt, g6)
    else
      let (c, g') := choiceD [(0 : ℚ), 1/4, 1/2, 3/4] 0 g6
      (round2 (amt * c), g')
  let (event_type, g8) :=
    choiceD ["invoice_issued", "invoice_paid", "refund_issued"] "" g7
  let (tax, g9) := choiceD [(0 : ℚ), 5/100, 7/100, 1/10] 0 g8
  let (lines, g10) := randint 1 5 g9
  (base ++ [("event_type", .str event_type), ("invoice_id", .str invoice_id),
    ("invoice_date", .str (isoZ issued)), ("due_date", .str (isoZ due)),
    ("status", .str status),
    ("amount", .num (if event_type ≠ "refund_issued" then amt else -paid)),
    ("amount_due", .num (max 0 (amt - paid))), ("amount_paid", .num paid),
    ("tax_rate", .num tax), ("line_count", .num (lines : ℚ))], g10)

/-- `gen_crm(day_str)`. -/
def gen_crm (day_str : String) (g : Rng) : Rec × Rng :=
  let (base, g1) := base_record day_str "crm" g
  let (event_type, g2) :=
    choicesW CRM_EVENTS [25, 10, 5, 20, 15, 5, 20] "" g1
  let (risk, g3) := randint 1 99 g2
  let (kyc, g4) := choiceD
    ["pending", "verified", "refresh_due", "blocked"] "" g3
  let (pep, g5) := choiceD [false, false, false, true] false g4
  let (ip3, g6) := randint 0 255 g5
  let (ip4, g7) := randint 0 255 g6
  let (ctry, g8) := choiceD COUNTRIES "" g7
  (base ++ [("event_type", .str event_type), ("amount", .num 0),
    ("kyc_status", .str kyc), ("risk_score", .num (risk : ℚ)),
    ("pep_flag", .bool pep),
    ("ip", .str ("192.168." ++ toString ip3.toNat ++ "."
      ++ toString ip4.toNat)),
    ("country", .str ctry)], g8)

/-- `gen_erp(day_str)`. -/
def gen_erp (day_str : String) (g : Rng) : Rec × Rng :=
  let (base, g1) := base_record day_str "erp" g
  let (journal, g2) := choiceD ERP_JOURNALS "" g1
  let (acct, g3) := choiceD GL_ACCOUNTS "" g2
  let (amt, g4) := rand_amount 5 5000 false g3
  let (side, g5) := choiceD ["debit", "credit"] "" g4
  let (entity, g6) := choiceD ["HQ", "NYC", "SFO", "LON"] "" g5
  let (postedBy, g7) := choiceD ["batch_job", "integration", "analyst"] "" g6
  (base ++ [("event_type", .str "gl_posting"), ("journal_type", .str journal),
    ("gl_account", .str acct),
    ("debit", .num (if side = "debit" then amt else 0)),
    ("credit", .num (if side = "credit" then amt else 0)),
    ("amount", .num amt),
    ("entity", .str entity), ("posted_by", .str postedBy)], g7)

/-- `gen_support(day_str)`. -/
def gen_support (day_str : String) (g : Rng) : Rec × Rng :=
  let (base, g1) := base_record day_str "support" g
  let (cat, g2) := choiceD SUPPORT_CATEGORIES "" g1
  let (pri, g3) := choicesW SUPPORT_PRIORITIES [50, 30, 15, 5] "" g2
  let (status, g4) := choicesW
    ["open", "in_progress", "resolved", "closed"] [20, 30, 35, 15] "" g3
  let (tck, g5) := uuid4 g4
  let (chan, g6) := choiceD ["phone", "email", "in_app", "chat"] "" g5
  (base ++ [("event_type",
      .str ("ticket_" ++ (if status = "resolved" ∨ status = "closed"
        then "closed" else "opened"))),
    ("amount", .num 0), ("ticket_id", .str ("TCK-" ++ tck.take 8)),
    ("category", .str cat), ("priority", .str pri), ("status", .str status),
    ("channel", .str chan)], g6)

/-- `GEN_BY_SOURCE`: the factory dispatch table. -/
def GEN_BY_SOURCE (source : String) :
    Option (String → Rng → Rec × Rng) :=
  if source = "payments" then some gen_payments
  else if source = "billing" then some gen_billing
  else if source = "crm" then some gen_crm
  else if source = "erp" then some gen_erp
  else if source = "support" then some gen_support
  else none

/-! ## Partition writer -/

/-- One output file: its directory path (components), file name, and the
records written as JSON lines, in order. -/
structure FileOut where
  dir : List String
  name : String
  lines : List Rec
  deriving DecidableEq, Repr

/-- The writer's backfill: `rec["amount"] = 0.0` when absent, then
`rec["event_type"] = "event"` when absent (appended in that order). -/
def ensureDefaults (r : Rec) : Rec :=
  let r1 := if hasKey r "amount" then r else r ++ [("amount", Json.num 0)]
  if hasKey r1 "event_type" then r1 else r1 ++ [("event_type", Json.str "event")]

/-- The inner `for _ in range(count)` loop of one file: generate `count`
records, each passed through the backfill before being written. -/
def writeRecs (gen : String → Rng → Rec × Rng) (day_str : String) :
    ℕ → Rng → List Rec × Rng
  | 0, g => ([], g)
  | k + 1, g =>
    let (r, g') := gen day_str g
    let (rest, g'') := writeRecs gen day_str k g'
    (ensureDefaults r :: rest, g'')

/-- `f"part-{i:05d}.json"`. -/
def partName (i : ℕ) : String := "part-" ++ padZeros 5 (toString i) ++ ".json"

/-- `math.ceil(n / m)` on the naturals (`m ≥ 1`; the script's operands are
far below the range where CPython's float division could diverge from the
exact ceiling). -/
def ceilDiv (n m : ℕ) : ℕ := (n + m - 1) / m

/-- Factory dispatch; the junk fallback models the `KeyError` a source
outside `SOURCES` would raise, and is unreachable under the claims'
source hypotheses. -/
def genFor (source : String) : String → Rng → Rec × Rng :=
  (GEN_BY_SOURCE source).getD (fun _ g => ([], g))

/-- The `for i in range(n_files)` loop of `write_partition`: at file `i`,
write `min(events_per_file, remaining)` records into `part-{i:05d}.json`
and recurse with the remainder. -/
def writeFilesLoop (gen : String → Rng → Rec × Rng) (day_str : String)
    (dirPath : List String) (epf : ℕ) :
    ℕ → ℕ → ℕ → Rng → List FileOut × Rng
  | 0, _, _, g => ([], g)
  | nf + 1, i, remaining, g =>
    let count := min epf remaining
    let (recs, g') := writeRecs gen day_str count g
    let (rest, g'') :=
      writeFilesLoop gen day_str dirPath epf nf (i + 1) (remaining - count) g'
    (⟨dirPath, partName i, recs⟩ :: rest, g'')

/-- `write_partition(day_str, source, out_dir, n_events, events_per_file)`:
returns the files created (directory creation and printing are the only
other effects). -/
def write_partition (day_str source : String) (out_dir : List String)
    (n_events events_per_file : ℕ) (g : Rng) : List FileOut × Rng :=
  let base := out_dir ++ ["day=" ++ day_str, "source=" ++ source]
  let n_files := max 1 (ceilDiv n_events events_per_file)
  writeFilesLoop (genFor source) day_str base events_per_file n_files 0
    n_events g

/-! ## Driver (`__main__`) -/

/-- `args.total_events // len(SOURCES)`. -/
def perSourceBase (total : ℕ) : ℕ := total / SOURCES.length

/-- `remainder = args.total_events - per_source * len(SOURCES)`. -/
def allocRemainder (total : ℕ) : ℕ :=
  total - perSourceBase total * SOURCES.length

/-- `n = per_source + (1 if idx < remainder else 0)` for source index `idx`. -/
def sourceAlloc (total idx : ℕ) : ℕ :=
  perSourceBase total + (if idx < allocRemainder total then 1 else 0)

/-- The five per-source allocations for one day, in source order. -/
def allocations (total : ℕ) : List ℕ :=
  (List.range SOURCES.length).map (sourceAlloc total)

/-- `(strptime(args.day) - timedelta(days=d)).strftime("%Y-%m-%d")`.
An unparseable `--day` aborts the run at the first iteration in Python;
the claims hypothesise a parseable day. -/
def driverDay (endDay : String) (d : ℕ) : String :=
  formatDate (civilFromDays (daysFromCivil (dayStart endDay) - (d : ℤ)))

/-- The day strings the driver iterates over: `d = 0, …, days-1`. -/
def daysList (endDay : String) (days : ℕ) : List String :=
  (List.range days).map (driverDay endDay)

/-- The `for idx, source in enumerate(SOURCES)` loop of one day. -/
def writeDaySources (day_str : String) (out : List String) (total epf : ℕ) :
    List (ℕ × String) → Rng → List FileOut × Rng
  | [], g => ([], g)
  | (idx, source) :: rest, g =>
    let (files, g') :=
      write_partition day_str source out (sourceAlloc total idx) epf g
    let (more, g'') := writeDaySources day_str out total epf rest g'
    (files ++ more, g'')

/-- The `for d in range(args.days)` loop. -/
def driverLoop (endDay : String) (out : List String) (total epf : ℕ) :
    List ℕ → Rng → List FileOut × Rng
  | [], g => ([], g)
  | d :: ds, g =>
    let (files, g') :=
      writeDaySources (driverDay endDay d) out total epf SOURCES.enum g
    let (more, g'') := driverLoop endDay out total epf ds g'
    (files ++ more, g'')

/-- The whole `__main__` run: every file the process writes, in order. -/
def driverRun (endDay : String) (days total epf : ℕ) (out : List String)
    (g : Rng) : List FileOut × Rng :=
  driverLoop endDay out total epf (List.range days) g

/-! ## General lemmas about the embedding -/

theorem getVal_append_of_not_hasKey {r s : Rec} {k : String}
    (h : hasKey r k = false) : getVal (r ++ s) k = getVal s k := by
  induction r with
  | nil => rfl
  | cons p rest ih =>
    obtain ⟨k', v⟩ := p
    by_cases hk : k' = k
    · simp [hasKey, hk] at h
    · simpa [getVal, hk] using ih (by simpa [hasKey, hk] using h)

theorem hasKey_append {r s : Rec} {k : String} :
    hasKey (r ++ s) k = (hasKey r k || hasKey s k) := by
  induction r with
  | nil => simp [hasKey]
  | cons p rest ih =>
    obtain ⟨k', v⟩ := p
    by_cases hk : k' = k <;> simp [hasKey, hk, ih]

theorem hasKey_eq_contains (r : Rec) (k : String) :
    hasKey r k = (r.map Prod.fst).contains k := by
  induction r with
  | nil => rfl
  | cons p rest ih =>
    obtain ⟨k', v⟩ := p
    simp only [hasKey, List.map_cons, List.contains_cons]
    by_cases hk : k' = k
    · simp [hk]
    · have hbeq : (k == k') = false := by
        simp only [beq_eq_false_iff_ne, ne_eq]
        exact fun h => hk h.symm
      simp [hk, hbeq, ih]

theorem getVal_isSome_of_hasKey {r : Rec} {k : String}
    (h : hasKey r k = true) : ∃ v, getVal r k = some v := by
  induction r with
  | nil => simp [hasKey] at h
  | cons p rest ih =>
    obtain ⟨k', v⟩ := p
    by_cases hk : k' = k
    · exact ⟨v, by simp [getVal, hk]⟩
    · simpa [getVal, hk] using ih (by simpa [hasKey, hk] using h)

theorem choiceD_mem {α : Type} {xs : List α} (d : α) (g : Rng)
    (h : xs ≠ []) : (choiceD xs d g).1 ∈ xs := by
  have hlen : 0 < xs.length := List.length_pos.mpr h
  have hlt : (drawNat g xs.length).1 < xs.length := by
    simpa [drawNat, nextNat] using Nat.mod_lt _ hlen
  simp [choiceD, List.getD_eq_getElem?_getD, List.getElem?_eq_getElem hlt]

theorem weightedIndex_lt {ws : List ℕ} {r : ℕ}
    (h : r < ws.foldr (· + ·) 0) : weightedIndex ws r < ws.length := by
  induction ws generalizing r with
  | nil => simp at h
  | cons w rest ih =>
    by_cases hr : r < w
    · simp [weightedIndex, hr]
    · have : r - w < rest.foldr (· + ·) 0 := by
        simp only [List.foldr] at h; omega
      simpa [weightedIndex, hr] using ih this

theorem choicesW_mem {α : Type} {xs : List α} {ws : List ℕ} (d : α) (g : Rng)
    (hws : 0 < ws.foldr (· + ·) 0) (hlen : ws.length = xs.length) :
    (choicesW xs ws d g).1 ∈ xs := by
  have hr : (drawNat g (ws.foldr (· + ·) 0)).1 < ws.foldr (· + ·) 0 := by
    simpa [drawNat, nextNat] using Nat.mod_lt _ hws
  have hidx := weightedIndex_lt hr
  rw [hlen] at hidx
  simp [choicesW, List.getD_eq_getElem?_getD, List.getElem?_eq_getElem hidx]

theorem fracQ_nonneg (g : Rng) : 0 ≤ (fracQ g).1 := by
  simp only [fracQ]
  positivity

theorem fracQ_lt_one (g : Rng) : (fracQ g).1 < 1 := by
  have hm : (g.stream g.pos) % fracDenom < fracDenom :=
    Nat.mod_lt _ (by norm_num [fracDenom])
  have hd : (0 : ℚ) < (fracDenom : ℚ) := by norm_num [fracDenom]
  simp only [fracQ, nextNat]
  rw [div_lt_one hd]
  exact_mod_cast hm

theorem uniformQ_le_left {lo hi : ℚ} (h : lo ≤ hi) (g : Rng) :
    lo ≤ (uniformQ lo hi g).1 := by
  simp only [uniformQ]
  have h1 : 0 ≤ (fracQ g).1 := fracQ_nonneg g
  nlinarith [fracQ_nonneg g]

theorem uniformQ_lt_right {lo hi : ℚ} (h : lo < hi) (g : Rng) :
    (uniformQ lo hi g).1 < hi := by
  simp only [uniformQ]
  nlinarith [fracQ_nonneg g, fracQ_lt_one g]

theorem round2_pos {q : ℚ} (h : 1 ≤ q) : 0 < round2 q := by
  have : (1 : ℤ) ≤ round (100 * q) := by
    rw [round_eq, Int.le_floor]
    push_cast
    linarith
  unfold round2
  positivity

theorem round2_nonneg {q : ℚ} (h : 0 ≤ q) : 0 ≤ round2 q := by
  have : (0 : ℤ) ≤ round (100 * q) := by
    rw [round_eq, Int.le_floor]
    push_cast
    linarith
  unfold round2
  positivity

/-- `rand_amount lo hi false` is strictly positive whenever `1 ≤ lo < hi`. -/
theorem rand_amount_pos {lo hi : ℚ} (h1 : 1 ≤ lo) (h2 : lo < hi) (g : Rng) :
    0 < (rand_amount lo hi false g).1 := by
  simp only [rand_amount, Bool.false_eq_true, if_false]
  exact round2_pos (le_trans h1 (uniformQ_le_left (le_of_lt h2) g))

/-- `rand_amount lo hi false` is nonnegative whenever `0 ≤ lo ≤ hi`. -/
theorem rand_amount_nonneg {lo hi : ℚ} (h1 : 0 ≤ lo) (h2 : lo ≤ hi)
    (g : Rng) : 0 ≤ (rand_amount lo hi false g).1 := by
  simp only [rand_amount, Bool.false_eq_true, if_false]
  exact round2_nonneg (le_trans h1 (uniformQ_le_left h2 g))

/-! ## Lemmas about the partition writer loop -/

theorem writeRecs_length (gen : String → Rng → Rec × Rng) (day_str : String) :
    ∀ (k : ℕ) (g : Rng), ((writeRecs gen day_str k g).1).length = k := by
  intro k
  induction k with
  | zero => intro g; rfl
  | succ n ih => intro g; simp [writeRecs, ih]

/-- Each record the inner loop writes has passed through the backfill. -/
theorem writeRecs_mem (gen : String → Rng → Rec × Rng) (day_str : String) :
    ∀ (k : ℕ) (g : Rng) (r : Rec), r ∈ (writeRecs gen day_str k g).1 →
      ∃ r₀, r = ensureDefaults r₀ := by
  intro k
  induction k with
  | zero => intro g r h; simp [writeRecs] at h
  | succ n ih =>
    intro g r h
    simp only [writeRecs, List.mem_cons] at h
    rcases h with h | h
    · exact ⟨(gen day_str g).1, h⟩
    · exact ih _ r h

/-- The sequence of per-file line counts the writer loop produces. -/
def countSeq (epf : ℕ) : ℕ → ℕ → List ℕ
  | _, 0 => []
  | rem, nf + 1 => min epf rem :: countSeq epf (rem - min epf rem) nf

theorem writeFilesLoop_length (gen : String → Rng → Rec × Rng)
    (day_str : String) (dirPath : List String) (epf : ℕ) :
    ∀ (nf i rem : ℕ) (g : Rng),
      ((writeFilesLoop gen day_str dirPath epf nf i rem g).1).length = nf := by
  intro nf
  induction nf with
  | zero => intro i rem g; rfl
  | succ n ih => intro i rem g; simp [writeFilesLoop, ih]

theorem writeFilesLoop_counts (gen : String → Rng → Rec × Rng)
    (day_str : String) (dirPath : List String) (epf : ℕ) :
    ∀ (nf i rem : ℕ) (g : Rng),
      ((writeFilesLoop gen day_str dirPath epf nf i rem g).1).map
          (fun f => f.lines.length) = countSeq epf rem nf := by
  intro nf
  induction nf with
  | zero => intro i rem g; rfl
  | succ n ih =>
    intro i rem g
    simp [writeFilesLoop, countSeq, ih, writeRecs_length]

theorem writeFilesLoop_meta (gen : String → Rng → Rec × Rng)
    (day_str : String) (dirPath : List String) (epf : ℕ) :
    ∀ (nf i rem : ℕ) (g : Rng),
      ((writeFilesLoop gen day_str dirPath epf nf i rem g).1).map
          (fun f => (f.dir, f.name)) =
        (List.range nf).map (fun j => (dirPath, partName (i + j))) := by
  intro nf
  induction nf with
  | zero => intro i rem g; rfl
  | succ n ih =>
    intro i rem g
    rw [List.range_succ_eq_map]
    simp only [writeFilesLoop, List.map_cons, List.map_map]
    rw [ih]
    refine List.cons_eq_cons.mpr ⟨by simp, ?_⟩
    apply List.map_congr_left
    intro j _
    simp only [Function.comp_apply]
    have : i + 1 + j = i + (j + 1) := by omega
    rw [this]

/-- Every record in every file of the loop has passed the backfill. -/
theorem writeFilesLoop_recs (gen : String → Rng → Rec × Rng)
    (day_str : String) (dirPath : List String) (epf : ℕ) :
    ∀ (nf i rem : ℕ) (g : Rng) (f : FileOut),
      f ∈ (writeFilesLoop gen day_str dirPath epf nf i rem g).1 →
      ∀ r ∈ f.lines, ∃ r₀, r = ensureDefaults r₀ := by
  intro nf
  induction nf with
  | zero => intro i rem g f hf; simp [writeFilesLoop] at hf
  | succ n ih =>
    intro i rem g f hf
    simp only [writeFilesLoop, List.mem_cons] at hf
    rcases hf with hf | hf
    · intro r hr
      subst hf
      exact writeRecs_mem gen day_str _ _ r hr
    · exact ih _ _ _ f hf

/-! ## Arithmetic facts about `ceilDiv` and `countSeq` -/

theorem le_ceilDiv_mul {n m : ℕ} (hm : 1 ≤ m) : n ≤ ceilDiv n m * m := by
  have hd := Nat.div_add_mod (n + m - 1) m
  have hr : (n + m - 1) % m < m := Nat.mod_lt _ (by omega)
  unfold ceilDiv
  rw [Nat.mul_comm]
  omega

theorem ceilDiv_pred_mul_lt {n m : ℕ} (hm : 1 ≤ m) (hn : 0 < n) :
    (ceilDiv n m - 1) * m < n := by
  have hd := Nat.div_add_mod (n + m - 1) m
  have hr : (n + m - 1) % m < m := Nat.mod_lt _ (by omega)
  have hq : 1 ≤ ceilDiv n m := by
    unfold ceilDiv
    rw [Nat.le_div_iff_mul_le (by omega)]
    omega
  unfold ceilDiv at hq ⊢
  rw [Nat.sub_mul, Nat.mul_comm]
  omega

theorem countSeq_sum (epf : ℕ) :
    ∀ (nf rem : ℕ), (countSeq epf rem nf).sum = min rem (nf * epf) := by
  intro nf
  induction nf with
  | zero => intro rem; simp [countSeq]
  | succ n ih =>
    intro rem
    simp only [countSeq, List.sum_cons, ih]
    rcases Nat.le_total epf rem with h | h
    · rw [min_eq_left h]
      have : n * epf + epf = (n + 1) * epf := by ring
      omega
    · rw [min_eq_right h]
      have hle : rem ≤ (n + 1) * epf :=
        le_trans h (Nat.le_mul_of_pos_left epf (by omega))
      omega

theorem countSeq_get_full (epf : ℕ) :
    ∀ (nf rem j : ℕ), j + 1 < nf → (nf - 1) * epf < rem →
      (countSeq epf rem nf).getD j 0 = epf := by
  intro nf
  induction nf with
  | zero => intro rem j hj; omega
  | succ n ih =>
    intro rem j hj hrem
    have hn : 1 ≤ n := by omega
    have hnrem : n * epf < rem := by
      simpa using hrem
    have hepf : epf ≤ rem := by
      have : epf ≤ n * epf := Nat.le_mul_of_pos_left epf (by omega)
      omega
    match j with
    | 0 => simp [countSeq, Nat.min_eq_left hepf]
    | j' + 1 =>
      have hj' : j' + 1 < n := by omega
      have hrem' : (n - 1) * epf < rem - min epf rem := by
        have hle : epf ≤ n * epf := Nat.le_mul_of_pos_left epf (by omega)
        rw [Nat.min_eq_left hepf, Nat.sub_mul]
        omega
      simpa [countSeq] using ih (rem - min epf rem) j' hj' hrem'

theorem one_le_ceilDiv {n m : ℕ} (hm : 1 ≤ m) (hn : 0 < n) :
    1 ≤ ceilDiv n m := by
  unfold ceilDiv
  rw [Nat.le_div_iff_mul_le (by omega)]
  omega

/-! ## Claim C1 -/

/-- C1 (counterexample): for `count = 0`, `events_per_file = 1` the claim
"`write_partition` creates exactly `ceil(count / events_per_file)` output
files" fails: the code computes `n_files = max(1, ceil(...))` and creates
one (empty) file where the claimed count is zero. -/
theorem C1_counterexample :
    ¬ ((write_partition "2024-01-01" "payments" ["data", "raw"] 0 1
        ⟨fun _ => 0, 0, fun _ => 0, 0⟩).1.length = ceilDiv 0 1) := by
  decide

/-- C1 (amended): for every day, source, `count ≥ 0` and
`events_per_file ≥ 1`, `write_partition` creates exactly
`max 1 (ceil(count / events_per_file))` output files — the ceiling count,
except that a request for zero events still creates one empty file. -/
theorem C1_file_count (day source : String) (out : List String)
    (n epf : ℕ) (g : Rng) (_h : 1 ≤ epf) :
    (write_partition day source out n epf g).1.length
      = max 1 (ceilDiv n epf) :=
  writeFilesLoop_length _ _ _ _ _ _ _ _

theorem C1_file_count_witness :
    1 ≤ 2 ∧
      (write_partition "2024-01-01" "payments" ["data", "raw"] 5 2
        ⟨fun _ => 0, 0, fun _ => 0, 0⟩).1.length = max 1 (ceilDiv 5 2) :=
  ⟨by decide, C1_file_count "2024-01-01" "payments" ["data", "raw"] 5 2
    ⟨fun _ => 0, 0, fun _ => 0, 0⟩ (by decide)⟩

/-! ## Claim C2 -/

/-- C2: for every day, source, `count ≥ 0` and `events_per_file ≥ 1`,
the total number of lines written across the partition's files equals
`count` exactly, and every file except the last holds exactly
`events_per_file` lines (so the last file absorbs the remainder). -/
theorem C2_total_lines (day source : String) (out : List String)
    (n epf : ℕ) (g : Rng) (h : 1 ≤ epf) :
    (((write_partition day source out n epf g).1).map
        (fun f => f.lines.length)).sum = n ∧
    ∀ j, j + 1 < (write_partition day source out n epf g).1.length →
      (((write_partition day source out n epf g).1).map
          (fun f => f.lines.length)).getD j 0 = epf := by
  unfold write_partition
  rw [writeFilesLoop_counts, writeFilesLoop_length]
  constructor
  · rw [countSeq_sum]
    have h1 : n ≤ ceilDiv n epf * epf := le_ceilDiv_mul h
    have h2 : ceilDiv n epf * epf ≤ max 1 (ceilDiv n epf) * epf :=
      Nat.mul_le_mul_right _ (le_max_right _ _)
    exact min_eq_left (le_trans h1 h2)
  · intro j hj
    rcases Nat.eq_zero_or_pos n with hn | hn
    · subst hn
      have : ceilDiv 0 epf = 0 := by
        unfold ceilDiv
        exact Nat.div_eq_of_lt (by omega)
      rw [this] at hj
      simp at hj
    · have hmax : max 1 (ceilDiv n epf) = ceilDiv n epf :=
        max_eq_right (one_le_ceilDiv h hn)
      rw [hmax] at hj ⊢
      exact countSeq_get_full epf _ n j hj (ceilDiv_pred_mul_lt h hn)

theorem C2_total_lines_witness :
    1 ≤ 2 ∧
      ((((write_partition "2024-01-01" "crm" ["data", "raw"] 5 2
          ⟨fun _ => 0, 0, fun _ => 0, 0⟩).1).map (fun f => f.lines.length)).sum = 5 ∧
      ∀ j, j + 1 < (write_partition "2024-01-01" "crm" ["data", "raw"] 5 2
          ⟨fun _ => 0, 0, fun _ => 0, 0⟩).1.length →
        (((write_partition "2024-01-01" "crm" ["data", "raw"] 5 2
            ⟨fun _ => 0, 0, fun _ => 0, 0⟩).1).map (fun f => f.lines.length)).getD j 0
          = 2) :=
  ⟨by decide, C2_total_lines "2024-01-01" "crm" ["data", "raw"] 5 2
    ⟨fun _ => 0, 0, fun _ => 0, 0⟩ (by decide)⟩

/-! ## Claim C3 -/

theorem allocRemainder_eq (T : ℕ) : allocRemainder T = T % 5 := by
  have h5 : SOURCES.length = 5 := rfl
  have hdm := Nat.div_add_mod T 5
  simp only [allocRemainder, perSourceBase, h5]
  omega

theorem sourceAlloc_eq (T i : ℕ) :
    sourceAlloc T i = T / 5 + (if i < T % 5 then 1 else 0) := by
  have h : perSourceBase T = T / 5 := rfl
  rw [sourceAlloc, h, allocRemainder_eq]

/-- C3: the driver gives each of the five sources `T div 5` events, one
extra event to each of the first `T mod 5` sources, and the five
allocations sum to `T` exactly. -/
theorem C3_allocations (T : ℕ) :
    (allocations T).sum = T ∧
    ∀ i, i < 5 → sourceAlloc T i = T / 5 + (if i < T % 5 then 1 else 0) := by
  constructor
  · have hl : allocations T = [sourceAlloc T 0, sourceAlloc T 1,
        sourceAlloc T 2, sourceAlloc T 3, sourceAlloc T 4] := rfl
    rw [hl]
    simp only [List.sum_cons, List.sum_nil, sourceAlloc_eq]
    have h5 : T % 5 < 5 := Nat.mod_lt _ (by omega)
    have hdm := Nat.div_add_mod T 5
    split_ifs <;> omega
  · intro i _
    exact sourceAlloc_eq T i

theorem C3_allocations_witness :
    (allocations 12).sum = 12 ∧
      sourceAlloc 12 1 = 12 / 5 + (if 1 < 12 % 5 then 1 else 0) :=
  ⟨(C3_allocations 12).1, (C3_allocations 12).2 1 (by decide)⟩

/-! ## Structure of the factory records -/

theorem base_record_keys (day source : String) (g : Rng) :
    ((base_record day source g).1).map Prod.fst =
      ["event_id", "user_id", "currency", "source_system", "timestamp"] := rfl

theorem base_record_hasKey_false (day source : String) (g : Rng)
    (k : String)
    (h : (["event_id", "user_id", "currency", "source_system",
        "timestamp"] : List String).contains k = false) :
    hasKey (base_record day source g).1 k = false := by
  rw [hasKey_eq_contains, base_record_keys, h]

/-- `gen_erp` in explicit projection form (the record part). -/
theorem gen_erp_rec (day : String) (g : Rng) :
    (gen_erp day g).1 =
      (base_record day "erp" g).1 ++
        [("event_type", .str "gl_posting"),
         ("journal_type", .str (choiceD ERP_JOURNALS ""
            (base_record day "erp" g).2).1),
         ("gl_account", .str (choiceD GL_ACCOUNTS ""
            (choiceD ERP_JOURNALS "" (base_record day "erp" g).2).2).1),
         ("debit", .num (if (choiceD ["debit", "credit"] ""
              (rand_amount 5 5000 false
                (choiceD GL_ACCOUNTS ""
                  (choiceD ERP_JOURNALS ""
                    (base_record day "erp" g).2).2).2).2).1 = "debit"
            then (rand_amount 5 5000 false
                (choiceD GL_ACCOUNTS ""
                  (choiceD ERP_JOURNALS ""
                    (base_record day "erp" g).2).2).2).1 else 0)),
         ("credit", .num (if (choiceD ["debit", "credit"] ""
              (rand_amount 5 5000 false
                (choiceD GL_ACCOUNTS ""
                  (choiceD ERP_JOURNALS ""
                    (base_record day "erp" g).2).2).2).2).1 = "credit"
            then (rand_amount 5 5000 false
                (choiceD GL_ACCOUNTS ""
                  (choiceD ERP_JOURNALS ""
                    (base_record day "erp" g).2).2).2).1 else 0)),
         ("amount", .num (rand_amount 5 5000 false
            (choiceD GL_ACCOUNTS ""
              (choiceD ERP_JOURNALS ""
                (base_record day "erp" g).2).2).2).1),
         ("entity", .str (choiceD ["HQ", "NYC", "SFO", "LON"] ""
            (choiceD ["debit", "credit"] ""
              (rand_amount 5 5000 false
                (choiceD GL_ACCOUNTS ""
                  (choiceD ERP_JOURNALS ""
                    (base_record day "erp" g).2).2).2).2).2).1),
         ("posted_by", .str (choiceD ["batch_job", "integration", "analyst"] ""
            (choiceD ["HQ", "NYC", "SFO", "LON"] ""
              (choiceD ["debit", "credit"] ""
                (rand_amount 5 5000 false
                  (choiceD GL_ACCOUNTS ""
                    (choiceD ERP_JOURNALS ""
                      (base_record day "erp" g).2).2).2).2).2).2).1)] := rfl

/-! ## Claim C9 -/

/-- C9: every `gen_erp` record has `event_type = "gl_posting"`, a strictly
positive `amount`, and exactly one of `debit`/`credit` equal to that
amount with the other equal to `0.0`. -/
theorem C9_gl_posting_invariant (day : String) (g : Rng) :
    getVal (gen_erp day g).1 "event_type" = some (.str "gl_posting") ∧
    ∃ q : ℚ, 0 < q ∧ getVal (gen_erp day g).1 "amount" = some (.num q) ∧
      ((getVal (gen_erp day g).1 "debit" = some (.num q) ∧
        getVal (gen_erp day g).1 "credit" = some (.num 0)) ∨
       (getVal (gen_erp day g).1 "debit" = some (.num 0) ∧
        getVal (gen_erp day g).1 "credit" = some (.num q))) := by
  have hmem : (choiceD ["debit", "credit"] ""
      (rand_amount 5 5000 false
        (choiceD GL_ACCOUNTS ""
          (choiceD ERP_JOURNALS ""
            (base_record day "erp" g).2).2).2).2).1 ∈
      (["debit", "credit"] : List String) := choiceD_mem _ _ (by decide)
  have hpos : 0 < (rand_amount 5 5000 false
      (choiceD GL_ACCOUNTS ""
        (choiceD ERP_JOURNALS ""
          (base_record day "erp" g).2).2).2).1 :=
    rand_amount_pos (by norm_num) (by norm_num) _
  rw [gen_erp_rec]
  rw [getVal_append_of_not_hasKey (base_record_hasKey_false day "erp" g _ (by decide)),
    getVal_append_of_not_hasKey (base_record_hasKey_false day "erp" g _ (by decide)),
    getVal_append_of_not_hasKey (base_record_hasKey_false day "erp" g _ (by decide)),
    getVal_append_of_not_hasKey (base_record_hasKey_false day "erp" g _ (by decide))]
  simp only [getVal, if_pos, if_neg, String.reduceEq, reduceIte]
  refine ⟨trivial, _, hpos, rfl, ?_⟩
  rcases List.mem_cons.mp hmem with h | h
  · left
    rw [h]
    simp
  · right
    simp only [List.mem_cons, List.not_mem_nil, or_false] at h
    rw [h]
    simp

/-! ## Backfill lemmas and Claim C4 -/

theorem getVal_append_left {r s : Rec} {k : String} {v : Json}
    (h : getVal r k = some v) : getVal (r ++ s) k = some v := by
  induction r with
  | nil => simp [getVal] at h
  | cons p rest ih =>
    obtain ⟨k', v'⟩ := p
    by_cases hk : k' = k
    · simp only [getVal, if_pos hk] at h
      simp only [List.cons_append, getVal, if_pos hk]
      exact h
    · simp only [getVal, if_neg hk] at h
      simp only [List.cons_append, getVal, if_neg hk]
      exact ih h

theorem ensureDefaults_hasKey_amount (r : Rec) :
    hasKey (ensureDefaults r) "amount" = true := by
  unfold ensureDefaults
  have step : hasKey (if hasKey r "amount" then r
      else r ++ [("amount", Json.num 0)]) "amount" = true := by
    by_cases h : hasKey r "amount" = true
    · simp [h]
    · have hb : hasKey r "amount" = false := by simpa using h
      simp [hb, hasKey_append, hasKey]
  by_cases h2 : hasKey (if hasKey r "amount" then r
      else r ++ [("amount", Json.num 0)]) "event_type" = true
  · simpa [h2] using step
  · have hb2 : hasKey (if hasKey r "amount" then r
        else r ++ [("amount", Json.num 0)]) "event_type" = false := by
      simpa using h2
    simp [hb2, hasKey_append, step]

theorem ensureDefaults_hasKey_event_type (r : Rec) :
    hasKey (ensureDefaults r) "event_type" = true := by
  unfold ensureDefaults
  by_cases h2 : hasKey (if hasKey r "amount" then r
      else r ++ [("amount", Json.num 0)]) "event_type" = true
  · simp [h2]
  · have hb2 : hasKey (if hasKey r "amount" then r
        else r ++ [("amount", Json.num 0)]) "event_type" = false := by
      simpa using h2
    simp [hb2, hasKey_append, hasKey]

theorem ensureDefaults_amount_default (r : Rec)
    (h : hasKey r "amount" = false) :
    getVal (ensureDefaults r) "amount" = some (Json.num 0) := by
  unfold ensureDefaults
  rw [h]
  have hv : getVal (r ++ [("amount", Json.num 0)]) "amount"
      = some (Json.num 0) := by
    rw [getVal_append_of_not_hasKey h]
    simp [getVal]
  simp only [Bool.false_eq_true, if_false]
  by_cases h2 : hasKey (r ++ [("amount", Json.num 0)]) "event_type" = true
  · simp [h2, hv]
  · have hb2 : hasKey (r ++ [("amount", Json.num 0)]) "event_type" = false := by
      simpa using h2
    simp only [hb2, Bool.false_eq_true, if_false]
    exact getVal_append_left hv

theorem ensureDefaults_event_type_default (r : Rec)
    (h : hasKey r "event_type" = false) :
    getVal (ensureDefaults r) "event_type" = some (Json.str "event") := by
  unfold ensureDefaults
  have happ : hasKey (r ++ [("amount", Json.num 0)]) "event_type" = false := by
    rw [hasKey_append, h]
    simp [hasKey]
  by_cases h1 : hasKey r "amount" = true
  · simp only [h1, if_true, h, Bool.false_eq_true, if_false]
    rw [getVal_append_of_not_hasKey h]
    simp [getVal]
  · have hb1 : hasKey r "amount" = false := by simpa using h1
    simp only [hb1, Bool.false_eq_true, if_false, happ]
    rw [getVal_append_of_not_hasKey happ]
    simp [getVal]

/-- C4: every record the partition writer serializes carries both
`event_type` and `amount`: the backfill supplies `0.0` for a missing
`amount` and the default `"event"` for a missing `event_type`, and every
line of every written file has both keys. -/
theorem C4_required_keys (day source : String) (out : List String)
    (n epf : ℕ) (g : Rng) :
    (∀ r : Rec,
      hasKey (ensureDefaults r) "amount" = true ∧
      hasKey (ensureDefaults r) "event_type" = true ∧
      (hasKey r "amount" = false →
        getVal (ensureDefaults r) "amount" = some (Json.num 0)) ∧
      (hasKey r "event_type" = false →
        getVal (ensureDefaults r) "event_type" = some (Json.str "event"))) ∧
    ∀ f ∈ (write_partition day source out n epf g).1, ∀ r ∈ f.lines,
      hasKey r "amount" = true ∧ hasKey r "event_type" = true := by
  constructor
  · intro r
    exact ⟨ensureDefaults_hasKey_amount r, ensureDefaults_hasKey_event_type r,
      ensureDefaults_amount_default r, ensureDefaults_event_type_default r⟩
  · intro f hf r hr
    obtain ⟨r₀, hr₀⟩ := writeFilesLoop_recs _ _ _ _ _ _ _ _ f hf r hr
    subst hr₀
    exact ⟨ensureDefaults_hasKey_amount r₀, ensureDefaults_hasKey_event_type r₀⟩

theorem C4_required_keys_witness :
    hasKey ([] : Rec) "amount" = false ∧
      getVal (ensureDefaults []) "amount" = some (Json.num 0) ∧
      getVal (ensureDefaults []) "event_type" = some (Json.str "event") :=
  ⟨rfl,
    (((C4_required_keys "2024-01-01" "crm" [] 1 1 ⟨fun _ => 0, 0, fun _ => 0, 0⟩).1 [])).2.2.1 rfl,
    (((C4_required_keys "2024-01-01" "crm" [] 1 1 ⟨fun _ => 0, 0, fun _ => 0, 0⟩).1 [])).2.2.2 rfl⟩

/-! ## Claim C6 -/

/-- C6: the partition writer writes files only under
`<out>/day=<day>/source=<source>` — with the `day=` component built from
the requested day argument verbatim — and names them
`part-00000.json, part-00001.json, …` in order. -/
theorem C6_partition_paths (day source : String) (out : List String)
    (n epf : ℕ) (g : Rng) (_h : 1 ≤ epf) :
    ((write_partition day source out n epf g).1).map
        (fun f => (f.dir, f.name))
      = (List.range (max 1 (ceilDiv n epf))).map
          (fun j => (out ++ ["day=" ++ day, "source=" ++ source],
            partName j)) := by
  unfold write_partition
  simpa using writeFilesLoop_meta (genFor source) day
    (out ++ ["day=" ++ day, "source=" ++ source]) epf _ 0 n g

theorem C6_partition_paths_witness :
    1 ≤ 1 ∧
      ((write_partition "2024-01-05" "erp" ["data", "raw"] 2 1
          ⟨fun _ => 0, 0, fun _ => 0, 0⟩).1).map (fun f => (f.dir, f.name))
        = (List.range (max 1 (ceilDiv 2 1))).map
            (fun j => (["data", "raw", "day=2024-01-05", "source=erp"],
              partName j)) :=
  ⟨by decide, C6_partition_paths "2024-01-05" "erp" ["data", "raw"] 2 1
    ⟨fun _ => 0, 0, fun _ => 0, 0⟩ (by decide)⟩

/-! Projection shorthands for the states of `gen_payments`. -/

def payBase (day : String) (g : Rng) : Rec := (base_record day "payments" g).1

def payG1 (day : String) (g : Rng) : Rng := (base_record day "payments" g).2

def payChannel (day : String) (g : Rng) : String :=
  (choicesW PAYMENT_CHANNELS [20, 20, 10, 25, 20, 5] "" (payG1 day g)).1

def payG2 (day : String) (g : Rng) : Rng :=
  (choicesW PAYMENT_CHANNELS [20, 20, 10, 25, 20, 5] "" (payG1 day g)).2

def payStatus (day : String) (g : Rng) : String :=
  (choicesW ["posted", "pending", "failed"] [80, 17, 3] "" (payG2 day g)).1

def payG3 (day : String) (g : Rng) : Rng :=
  (choicesW ["posted", "pending", "failed"] [80, 17, 3] "" (payG2 day g)).2

def payCardG4 (day : String) (g : Rng) : Rng := (merchant (payG3 day g)).2

def payCardAmt (day : String) (g : Rng) : ℚ :=
  (rand_amount 1 500 true (payCardG4 day g)).1

def payCardG5 (day : String) (g : Rng) : Rng :=
  (rand_amount 1 500 true (payCardG4 day g)).2

def payCardG6 (day : String) (g : Rng) : Rng :=
  (choiceD CARD_NETWORKS "" (payCardG5 day g)).2

def payCardG7 (day : String) (g : Rng) : Rng :=
  (pan_last4 (payCardG6 day g)).2

def payCardG8 (day : String) (g : Rng) : Rng :=
  (choiceD [true, false] true (payCardG7 day g)).2

def payCardG9 (day : String) (g : Rng) : Rng :=
  (choiceD POS_ENTRY_MODES "" (payCardG8 day g)).2

def payApproval (day : String) (g : Rng) : Json × Rng :=
  if payStatus day g ≠ "failed" then
    (Json.str (((uuid4 (payCardG9 day g)).1).take 6),
      (uuid4 (payCardG9 day g)).2)
  else (Json.null, payCardG9 day g)

def payDecline (day : String) (g : Rng) : Json × Rng :=
  if payStatus day g ≠ "failed" then (Json.null, (payApproval day g).2)
  else
    (Json.str ((choiceD ["insufficient_funds", "suspected_fraud",
        "do_not_honor"] "" (payApproval day g).2).1),
      (choiceD ["insufficient_funds", "suspected_fraud", "do_not_honor"] ""
        (payApproval day g).2).2)

def payCardRec (day : String) (g : Rng) : Rec :=
  payBase day g ++
    [("event_type", .str (payChannel day g)),
     ("amount", .num (payCardAmt day g)),
     ("card_network", .str (choiceD CARD_NETWORKS "" (payCardG5 day g)).1),
     ("pan_last4", .str (pan_last4 (payCardG6 day g)).1),
     ("card_present", .bool (choiceD [true, false] true (payCardG7 day g)).1),
     ("pos_entry_mode", .str (choiceD POS_ENTRY_MODES ""
        (payCardG8 day g)).1)] ++
    (merchant (payG3 day g)).1 ++
    [("approval_code", (payApproval day g).1),
     ("decline_reason", (payDecline day g).1),
     ("status", .str (payStatus day g))]

def payAchAmt (day : String) (g : Rng) : ℚ :=
  (rand_amount 5 2000 false (payG3 day g)).1

def payAchG4 (day : String) (g : Rng) : Rng :=
  (rand_amount 5 2000 false (payG3 day g)).2

def payAchG5 (day : String) (g : Rng) : Rng :=
  (nine_digits (payAchG4 day g)).2

def payAchG6 (day : String) (g : Rng) : Rng :=
  (pan_last4 (payAchG5 day g)).2

def payAchG7 (day : String) (g : Rng) : Rng :=
  (choiceD ["Payroll Inc", "Utility Co", "John Smith", "Jane Doe"] ""
    (payAchG6 day g)).2

def payAchRec (day : String) (g : Rng) : Rec :=
  payBase day g ++
    [("event_type", .str (payChannel day g)),
     ("amount", .num (if payChannel day g = "ach_credit" then payAchAmt day g
        else -payAchAmt day g)),
     ("routing_number", .str (nine_digits (payAchG4 day g)).1),
     ("account_last4", .str (pan_last4 (payAchG5 day g)).1),
     ("counterparty_name", .str (choiceD ["Payroll Inc", "Utility Co",
        "John Smith", "Jane Doe"] "" (payAchG6 day g)).1),
     ("trace_number", .str (((uuid4 (payAchG7 day g)).1).take 12)),
     ("status", .str (payStatus day g))]

def payWireAmt (day : String) (g : Rng) : ℚ :=
  (rand_amount 100 10000 false (payG3 day g)).1

def payWireG4 (day : String) (g : Rng) : Rng :=
  (rand_amount 100 10000 false (payG3 day g)).2

def payWireG5 (day : String) (g : Rng) : Rng :=
  (choiceD [payWireAmt day g, -payWireAmt day g] 0 (payWireG4 day g)).2

def payWireG6 (day : String) (g : Rng) : Rng :=
  (swift_bic (payWireG5 day g)).2

def payWireG7 (day : String) (g : Rng) : Rng :=
  (mask_iban (payWireG6 day g)).2

def payWireRec (day : String) (g : Rng) : Rec :=
  payBase day g ++
    [("event_type", .str "wire_transfer"),
     ("amount", .num (choiceD [payWireAmt day g, -payWireAmt day g] 0
        (payWireG4 day g)).1),
     ("swift_bic", .str (swift_bic (payWireG5 day g)).1),
     ("iban_masked", .str (mask_iban (payWireG6 day g)).1),
     ("is_international", .bool (choiceD [true, false] true
        (payWireG7 day g)).1),
     ("fees", .num (round2 (payWireAmt day g * (3 / 1000)))),
     ("status", .str (payStatus day g))]

def payZelleAmt (day : String) (g : Rng) : ℚ :=
  (rand_amount 5 500 false (payG3 day g)).1

def payZelleG4 (day : String) (g : Rng) : Rng :=
  (rand_amount 5 500 false (payG3 day g)).2

def payZelleG5 (day : String) (g : Rng) : Rng :=
  (choiceD [payZelleAmt day g, -payZelleAmt day g] 0 (payZelleG4 day g)).2

def payZelleRec (day : String) (g : Rng) : Rec :=
  payBase day g ++
    [("event_type", .str "zelle_payment"),
     ("amount", .num (choiceD [payZelleAmt day g, -payZelleAmt day g] 0
        (payZelleG4 day g)).1),
     ("counterparty_alias", .str (choiceD ["+1-202-555-0101",
        "friend@example.com", "$roommate"] "" (payZelleG5 day g)).1),
     ("status", .str (payStatus day g))]

set_option maxRecDepth 8000 in
set_option maxHeartbeats 2000000 in
/-- `gen_payments` in explicit branch/projection form (full pair). -/
theorem gen_payments_eq (day : String) (g : Rng) :
    gen_payments day g =
      (if payChannel day g = "card_auth" ∨ payChannel day g = "card_settlement"
      then (payCardRec day g, (payDecline day g).2)
      else if payChannel day g = "ach_credit" ∨ payChannel day g = "ach_debit"
      then (payAchRec day g, (uuid4 (payAchG7 day g)).2)
      else if payChannel day g = "wire_transfer"
      then (payWireRec day g, (choiceD [true, false] true (payWireG7 day g)).2)
      else (payZelleRec day g, (choiceD ["+1-202-555-0101",
        "friend@example.com", "$roommate"] "" (payZelleG5 day g)).2)) := rfl

theorem gen_payments_rec (day : String) (g : Rng) :
    (gen_payments day g).1 =
      if payChannel day g = "card_auth" ∨ payChannel day g = "card_settlement"
      then payCardRec day g
      else if payChannel day g = "ach_credit" ∨ payChannel day g = "ach_debit"
      then payAchRec day g
      else if payChannel day g = "wire_transfer" then payWireRec day g
      else payZelleRec day g := by
  rw [gen_payments_eq]
  by_cases h1 : payChannel day g = "card_auth" ∨
      payChannel day g = "card_settlement"
  · simp [h1]
  · by_cases h2 : payChannel day g = "ach_credit" ∨
        payChannel day g = "ach_debit"
    · simp [h1, h2]
    · by_cases h3 : payChannel day g = "wire_transfer" <;> simp [h1, h2, h3]

theorem merchant_keys (g : Rng) :
    ((merchant g).1).map Prod.fst =
      ["merchant_id", "merchant_name", "merchant_country", "mcc",
       "category"] := rfl

theorem merchant_hasKey_false (g : Rng) (k : String)
    (h : (["merchant_id", "merchant_name", "merchant_country", "mcc",
        "category"] : List String).contains k = false) :
    hasKey (merchant g).1 k = false := by
  rw [hasKey_eq_contains, merchant_keys, h]

/-- C10: in every card record of `gen_payments` (`card_auth` or
`card_settlement`), `decline_reason` is non-null iff the status is
`"failed"` and `approval_code` is null iff the status is `"failed"` — the
two fields are never both null and never both non-null. -/
theorem C10_card_status_fields (day : String) (g : Rng) :
    (getVal (gen_payments day g).1 "event_type" = some (.str "card_auth") ∨
     getVal (gen_payments day g).1 "event_type"
       = some (.str "card_settlement")) →
    ∃ st : String,
      getVal (gen_payments day g).1 "status" = some (.str st) ∧
      ((st = "failed" ∧
        getVal (gen_payments day g).1 "approval_code" = some Json.null ∧
        ∃ s, getVal (gen_payments day g).1 "decline_reason"
          = some (.str s)) ∨
       (st ≠ "failed" ∧
        getVal (gen_payments day g).1 "decline_reason" = some Json.null ∧
        ∃ s, getVal (gen_payments day g).1 "approval_code"
          = some (.str s))) := by
  intro hcard
  rw [gen_payments_rec] at hcard ⊢
  have hbase : ∀ k : String,
      (["event_id", "user_id", "currency", "source_system",
        "timestamp"] : List String).contains k = false →
      hasKey (payBase day g) k = false := fun k hk =>
    base_record_hasKey_false day "payments" g k hk
  by_cases h1 : payChannel day g = "card_auth" ∨
      payChannel day g = "card_settlement"
  · rw [if_pos h1] at hcard ⊢
    have hskip : ∀ k : String,
        hasKey (payBase day g) k = false →
        hasKey [("event_type", Json.str (payChannel day g)),
          ("amount", Json.num (payCardAmt day g)),
          ("card_network",
            Json.str (choiceD CARD_NETWORKS "" (payCardG5 day g)).1),
          ("pan_last4", Json.str (pan_last4 (payCardG6 day g)).1),
          ("card_present",
            Json.bool (choiceD [true, false] true (payCardG7 day g)).1),
          ("pos_entry_mode",
            Json.str (choiceD POS_ENTRY_MODES "" (payCardG8 day g)).1)] k
          = false →
        hasKey (merchant (payG3 day g)).1 k = false →
        getVal (payCardRec day g) k =
          getVal [("approval_code", (payApproval day g).1),
            ("decline_reason", (payDecline day g).1),
            ("status", Json.str (payStatus day g))] k := by
      intro k hk1 hk2 hk3
      unfold payCardRec
      have h12 : hasKey (payBase day g ++
          [("event_type", Json.str (payChannel day g)),
           ("amount", Json.num (payCardAmt day g)),
           ("card_network",
             Json.str (choiceD CARD_NETWORKS "" (payCardG5 day g)).1),
           ("pan_last4", Json.str (pan_last4 (payCardG6 day g)).1),
           ("card_present",
             Json.bool (choiceD [true, false] true (payCardG7 day g)).1),
           ("pos_entry_mode",
             Json.str (choiceD POS_ENTRY_MODES "" (payCardG8 day g)).1)]) k
          = false := by
        rw [hasKey_append, hk1, hk2]
        rfl
      have h123 : hasKey ((payBase day g ++
          [("event_type", Json.str (payChannel day g)),
           ("amount", Json.num (payCardAmt day g)),
           ("card_network",
             Json.str (choiceD CARD_NETWORKS "" (payCardG5 day g)).1),
           ("pan_last4", Json.str (pan_last4 (payCardG6 day g)).1),
           ("card_present",
             Json.bool (choiceD [true, false] true (payCardG7 day g)).1),
           ("pos_entry_mode",
             Json.str (choiceD POS_ENTRY_MODES "" (payCardG8 day g)).1)])
          ++ (merchant (payG3 day g)).1) k = false := by
        rw [hasKey_append, h12, hk3]
        rfl
      exact getVal_append_of_not_hasKey h123
    have hstatus : getVal (payCardRec day g) "status"
        = some (Json.str (payStatus day g)) := by
      rw [hskip "status" (hbase _ (by decide)) (by simp [hasKey])
        (merchant_hasKey_false _ _ (by decide))]
      simp [getVal]
    have happr : getVal (payCardRec day g) "approval_code"
        = some (payApproval day g).1 := by
      rw [hskip "approval_code" (hbase _ (by decide)) (by simp [hasKey])
        (merchant_hasKey_false _ _ (by decide))]
      simp [getVal]
    have hdecl : getVal (payCardRec day g) "decline_reason"
        = some (payDecline day g).1 := by
      rw [hskip "decline_reason" (hbase _ (by decide)) (by simp [hasKey])
        (merchant_hasKey_false _ _ (by decide))]
      simp [getVal]
    refine ⟨payStatus day g, hstatus, ?_⟩
    by_cases hst : payStatus day g = "failed"
    · left
      refine ⟨hst, ?_, ?_⟩
      · rw [happr]
        unfold payApproval
        rw [if_neg (by simp [hst])]
      · rw [hdecl]
        unfold payDecline
        rw [if_neg (by simp [hst])]
        exact ⟨_, rfl⟩
    · right
      refine ⟨hst, ?_, ?_⟩
      · rw [hdecl]
        unfold payDecline
        rw [if_pos hst]
      · rw [happr]
        unfold payApproval
        rw [if_pos hst]
        exact ⟨_, rfl⟩
  · rw [if_neg h1] at hcard
    by_cases h2 : payChannel day g = "ach_credit" ∨
        payChannel day g = "ach_debit"
    · rw [if_pos h2] at hcard
      have hev : getVal (payAchRec day g) "event_type"
          = some (Json.str (payChannel day g)) := by
        unfold payAchRec
        rw [getVal_append_of_not_hasKey (hbase _ (by decide))]
        simp [getVal]
      rw [hev] at hcard
      rcases hcard with hc | hc <;>
        simp only [Option.some.injEq, Json.str.injEq] at hc <;>
        exact absurd (by rw [hc]; tauto : payChannel day g = "card_auth" ∨
          payChannel day g = "card_settlement") h1
    · rw [if_neg h2] at hcard
      by_cases h3 : payChannel day g = "wire_transfer"
      · rw [if_pos h3] at hcard
        have hev : getVal (payWireRec day g) "event_type"
            = some (Json.str "wire_transfer") := by
          unfold payWireRec
          rw [getVal_append_of_not_hasKey (hbase _ (by decide))]
          simp [getVal]
        rw [hev] at hcard
        rcases hcard with hc | hc <;> simp at hc
      · rw [if_neg h3] at hcard
        have hev : getVal (payZelleRec day g) "event_type"
            = some (Json.str "zelle_payment") := by
          unfold payZelleRec
          rw [getVal_append_of_not_hasKey (hbase _ (by decide))]
          simp [getVal]
        rw [hev] at hcard
        rcases hcard with hc | hc <;> simp at hc

/-! Projection shorthands for the states of `gen_billing`. -/

def billG1 (day : String) (g : Rng) : Rng := (base_record day "billing" g).2

def billStatus (day : String) (g : Rng) : String :=
  (choicesW ["open", "paid", "overdue", "refunded"] [40, 45, 10, 5] ""
    (billG1 day g)).1

def billG2 (day : String) (g : Rng) : Rng :=
  (choicesW ["open", "paid", "overdue", "refunded"] [40, 45, 10, 5] ""
    (billG1 day g)).2

def billG3 (day : String) (g : Rng) : Rng := (uuid4 (billG2 day g)).2

def billIssued (day : String) (g : Rng) : Date × ℤ :=
  (rand_ts_for_day day (billG3 day g)).1

def billG4 (day : String) (g : Rng) : Rng :=
  (rand_ts_for_day day (billG3 day g)).2

def billDueDays (day : String) (g : Rng) : ℤ :=
  (choiceD [(7 : ℤ), 14, 30] 0 (billG4 day g)).1

def billG5 (day : String) (g : Rng) : Rng :=
  (choiceD [(7 : ℤ), 14, 30] 0 (billG4 day g)).2

def billAmt (day : String) (g : Rng) : ℚ :=
  (rand_amount 20 2000 false (billG5 day g)).1

def billG6 (day : String) (g : Rng) : Rng :=
  (rand_amount 20 2000 false (billG5 day g)).2

def billPaidPair (day : String) (g : Rng) : ℚ × Rng :=
  if billStatus day g = "paid" ∨ billStatus day g = "refunded" then
    (billAmt day g, billG6 day g)
  else
    (round2 (billAmt day g *
      (choiceD [(0 : ℚ), 1/4, 1/2, 3/4] 0 (billG6 day g)).1),
     (choiceD [(0 : ℚ), 1/4, 1/2, 3/4] 0 (billG6 day g)).2)

def billEventType (day : String) (g : Rng) : String :=
  (choiceD ["invoice_issued", "invoice_paid", "refund_issued"] ""
    (billPaidPair day g).2).1

def billG8 (day : String) (g : Rng) : Rng :=
  (choiceD ["invoice_issued", "invoice_paid", "refund_issued"] ""
    (billPaidPair day g).2).2

def billG9 (day : String) (g : Rng) : Rng :=
  (choiceD [(0 : ℚ), 5/100, 7/100, 1/10] 0 (billG8 day g)).2

set_option maxHeartbeats 1000000 in
/-- `gen_billing` in explicit projection form (the record part). -/
theorem gen_billing_rec (day : String) (g : Rng) :
    (gen_billing day g).1 =
      (base_record day "billing" g).1 ++
        [("event_type", .str (billEventType day g)),
         ("invoice_id", .str ("INV-" ++ ((uuid4 (billG2 day g)).1).take 8)),
         ("invoice_date", .str (isoZ (billIssued day g))),
         ("due_date", .str (isoZ (addDays (billIssued day g)
            (billDueDays day g)))),
         ("status", .str (billStatus day g)),
         ("amount", .num (if billEventType day g ≠ "refund_issued"
            then billAmt day g else -(billPaidPair day g).1)),
         ("amount_due", .num (max 0 (billAmt day g - (billPaidPair day g).1))),
         ("amount_paid", .num (billPaidPair day g).1),
         ("tax_rate", .num (choiceD [(0 : ℚ), 5/100, 7/100, 1/10] 0
            (billG8 day g)).1),
         ("line_count", .num ((randint 1 5 (billG9 day g)).1 : ℚ))] := rfl

theorem billPaid_nonneg (day : String) (g : Rng) :
    0 ≤ (billPaidPair day g).1 := by
  have hamt : 0 ≤ billAmt day g :=
    rand_amount_nonneg (by norm_num) (by norm_num) _
  unfold billPaidPair
  by_cases h : billStatus day g = "paid" ∨ billStatus day g = "refunded"
  · rw [if_pos h]
    exact hamt
  · rw [if_neg h]
    have hc : (choiceD [(0 : ℚ), 1/4, 1/2, 3/4] 0 (billG6 day g)).1 ∈
        [(0 : ℚ), 1/4, 1/2, 3/4] := choiceD_mem _ _ (by decide)
    have hall : ∀ x ∈ [(0 : ℚ), 1/4, 1/2, 3/4], 0 ≤ x := by
      intro x hx
      fin_cases hx <;> norm_num
    exact round2_nonneg (mul_nonneg hamt (hall _ hc))

/-- C5 (amended): `ach_debit` payment amounts are strictly negative,
`ach_credit` payment amounts are strictly positive, and billing
`refund_issued` amounts are non-positive (zero occurs when the refunded
invoice has `amount_paid = 0`). -/
theorem C5_amount_signs (day day' : String) (g g' : Rng) :
    (getVal (gen_payments day g).1 "event_type" = some (.str "ach_debit") →
      ∃ q : ℚ, getVal (gen_payments day g).1 "amount" = some (.num q) ∧
        q < 0) ∧
    (getVal (gen_payments day g).1 "event_type" = some (.str "ach_credit") →
      ∃ q : ℚ, getVal (gen_payments day g).1 "amount" = some (.num q) ∧
        0 < q) ∧
    (getVal (gen_billing day' g').1 "event_type"
        = some (.str "refund_issued") →
      ∃ q : ℚ, getVal (gen_billing day' g').1 "amount" = some (.num q) ∧
        q ≤ 0) := by
  have hbase : ∀ k : String,
      (["event_id", "user_id", "currency", "source_system",
        "timestamp"] : List String).contains k = false →
      hasKey (payBase day g) k = false := fun k hk =>
    base_record_hasKey_false day "payments" g k hk
  have hachpos : 0 < payAchAmt day g :=
    rand_amount_pos (by norm_num) (by norm_num) _
  -- the payments event type in every branch
  have hpay : ∀ s : String,
      getVal (gen_payments day g).1 "event_type" = some (.str s) →
      (s = "ach_credit" ∨ s = "ach_debit") →
      getVal (gen_payments day g).1 "amount" =
        some (.num (if payChannel day g = "ach_credit" then payAchAmt day g
          else -payAchAmt day g)) ∧ payChannel day g = s := by
    intro s hev hs
    rw [gen_payments_rec] at hev ⊢
    by_cases h1 : payChannel day g = "card_auth" ∨
        payChannel day g = "card_settlement"
    · rw [if_pos h1] at hev
      exfalso
      have hev1 : getVal (payBase day g ++
          [("event_type", Json.str (payChannel day g)),
           ("amount", Json.num (payCardAmt day g)),
           ("card_network",
             Json.str (choiceD CARD_NETWORKS "" (payCardG5 day g)).1),
           ("pan_last4", Json.str (pan_last4 (payCardG6 day g)).1),
           ("card_present",
             Json.bool (choiceD [true, false] true (payCardG7 day g)).1),
           ("pos_entry_mode",
             Json.str (choiceD POS_ENTRY_MODES "" (payCardG8 day g)).1)])
          "event_type" = some (Json.str (payChannel day g)) := by
        rw [getVal_append_of_not_hasKey (hbase _ (by decide))]
        simp [getVal]
      unfold payCardRec at hev
      rw [getVal_append_left (getVal_append_left hev1)] at hev
      simp only [Option.some.injEq, Json.str.injEq] at hev
      rcases h1 with h | h <;> rcases hs with h' | h' <;>
        rw [h, h'] at hev <;> simp at hev
    · rw [if_neg h1] at hev ⊢
      by_cases h2 : payChannel day g = "ach_credit" ∨
          payChannel day g = "ach_debit"
      · rw [if_pos h2] at hev ⊢
        have hev1 : getVal (payAchRec day g) "event_type"
            = some (Json.str (payChannel day g)) := by
          unfold payAchRec
          rw [getVal_append_of_not_hasKey (hbase _ (by decide))]
          simp [getVal]
        rw [hev1] at hev
        simp only [Option.some.injEq, Json.str.injEq] at hev
        have hamt : getVal (payAchRec day g) "amount" =
            some (.num (if payChannel day g = "ach_credit"
              then payAchAmt day g else -payAchAmt day g)) := by
          unfold payAchRec
          rw [getVal_append_of_not_hasKey (hbase _ (by decide))]
          simp [getVal]
        exact ⟨hamt, hev⟩
      · rw [if_neg h2] at hev
        exfalso
        by_cases h3 : payChannel day g = "wire_transfer"
        · rw [if_pos h3] at hev
          have hev1 : getVal (payWireRec day g) "event_type"
              = some (Json.str "wire_transfer") := by
            unfold payWireRec
            rw [getVal_append_of_not_hasKey (hbase _ (by decide))]
            simp [getVal]
          rw [hev1] at hev
          rcases hs with h' | h' <;> subst h' <;> simp at hev
        · rw [if_neg h3] at hev
          have hev1 : getVal (payZelleRec day g) "event_type"
              = some (Json.str "zelle_payment") := by
            unfold payZelleRec
            rw [getVal_append_of_not_hasKey (hbase _ (by decide))]
            simp [getVal]
          rw [hev1] at hev
          rcases hs with h' | h' <;> subst h' <;> simp at hev
  refine ⟨?_, ?_, ?_⟩
  · intro hev
    obtain ⟨hamt, hch⟩ := hpay "ach_debit" hev (Or.inr rfl)
    rw [hch] at hamt
    simp only [String.reduceEq, reduceIte] at hamt
    exact ⟨-payAchAmt day g, hamt, by linarith⟩
  · intro hev
    obtain ⟨hamt, hch⟩ := hpay "ach_credit" hev (Or.inl rfl)
    rw [hch] at hamt
    simp only [String.reduceEq, reduceIte, if_pos] at hamt
    exact ⟨payAchAmt day g, hamt, hachpos⟩
  · intro hev
    rw [gen_billing_rec] at hev ⊢
    have hbase' : hasKey (base_record day' "billing" g').1 "event_type"
        = false := base_record_hasKey_false day' "billing" g' _ (by decide)
    rw [getVal_append_of_not_hasKey hbase'] at hev
    simp only [getVal, String.reduceEq, reduceIte, if_pos,
      Option.some.injEq, Json.str.injEq] at hev
    rw [getVal_append_of_not_hasKey
      (base_record_hasKey_false day' "billing" g' _ (by decide))]
    refine ⟨-(billPaidPair day' g').1, ?_, ?_⟩
    · simp only [getVal, String.reduceEq, reduceIte]
      rw [hev]
      simp
    · have := billPaid_nonneg day' g'
      linarith

/-- C5 (counterexample): a billing record with `event_type =
"refund_issued"` and `amount = 0.0` (status `"open"`, paid multiplier 0),
refuting "for every billing record with event_type refund_issued the
amount field is strictly negative". -/
theorem C5_counterexample :
    ¬ (∀ (day : String) (g : Rng),
        getVal (gen_billing day g).1 "event_type"
          = some (.str "refund_issued") →
        ∃ q : ℚ, getVal (gen_billing day g).1 "amount" = some (.num q) ∧
          q < 0) := by
  intro h
  obtain ⟨q, hq, hneg⟩ := h "2024-01-01"
    ⟨fun i => if i = 8 then 2 else 0, 0, fun _ => 0, 0⟩ (by decide)
  have hev : billEventType "2024-01-01"
      ⟨fun i => if i = 8 then 2 else 0, 0, fun _ => 0, 0⟩ = "refund_issued" := by decide
  have hstat : ¬ (billStatus "2024-01-01"
        ⟨fun i => if i = 8 then 2 else 0, 0, fun _ => 0, 0⟩ = "paid" ∨
      billStatus "2024-01-01"
        ⟨fun i => if i = 8 then 2 else 0, 0, fun _ => 0, 0⟩ = "refunded") := by decide
  have hc : (choiceD [(0 : ℚ), 1/4, 1/2, 3/4] 0
      (billG6 "2024-01-01" ⟨fun i => if i = 8 then 2 else 0, 0, fun _ => 0, 0⟩)).1 = 0 := by
    decide
  have hpaid : (billPaidPair "2024-01-01"
      ⟨fun i => if i = 8 then 2 else 0, 0, fun _ => 0, 0⟩).1 = 0 := by
    unfold billPaidPair
    rw [if_neg hstat]
    rw [hc, mul_zero]
    unfold round2
    norm_num
  rw [gen_billing_rec, getVal_append_of_not_hasKey
    (base_record_hasKey_false _ "billing" _ _ (by decide))] at hq
  simp only [getVal, String.reduceEq, reduceIte, hev, ne_eq,
    not_true_eq_false, if_false, hpaid, neg_zero,
    Option.some.injEq, Json.num.injEq] at hq
  rw [← hq] at hneg
  exact lt_irrefl 0 hneg

theorem C10_card_status_fields_witness :
    ∃ st : String,
      getVal (gen_payments "2024-01-01"
        ⟨fun i => if i = 3 then 50 else 0, 0, fun _ => 0, 0⟩).1 "status"
        = some (.str st) ∧
      ((st = "failed" ∧
        getVal (gen_payments "2024-01-01"
          ⟨fun i => if i = 3 then 50 else 0, 0, fun _ => 0, 0⟩).1 "approval_code"
          = some Json.null ∧
        ∃ s, getVal (gen_payments "2024-01-01"
          ⟨fun i => if i = 3 then 50 else 0, 0, fun _ => 0, 0⟩).1 "decline_reason"
          = some (.str s)) ∨
       (st ≠ "failed" ∧
        getVal (gen_payments "2024-01-01"
          ⟨fun i => if i = 3 then 50 else 0, 0, fun _ => 0, 0⟩).1 "decline_reason"
          = some Json.null ∧
        ∃ s, getVal (gen_payments "2024-01-01"
          ⟨fun i => if i = 3 then 50 else 0, 0, fun _ => 0, 0⟩).1 "approval_code"
          = some (.str s))) :=
  C10_card_status_fields "2024-01-01" ⟨fun i => if i = 3 then 50 else 0, 0, fun _ => 0, 0⟩
    (Or.inl (by decide))

theorem C5_amount_signs_witness :
    ∃ q : ℚ,
      getVal (gen_payments "2024-01-01"
        ⟨fun i => if i = 3 then 20 else 0, 0, fun _ => 0, 0⟩).1 "amount"
        = some (.num q) ∧ q < 0 :=
  (C5_amount_signs "2024-01-01" "2024-01-01"
    ⟨fun i => if i = 3 then 20 else 0, 0, fun _ => 0, 0⟩
    ⟨fun i => if i = 3 then 20 else 0, 0, fun _ => 0, 0⟩).1 (by decide)

/-! ## Claim C7 -/

/-- C7: with `--days N` and end day `D`, the driver iterates over exactly
`N` day strings, the `d`-th being `D` minus `d` calendar days; in
particular `--days 3 --day 2024-01-03` yields `2024-01-03`, `2024-01-02`
and `2024-01-01`. -/
theorem C7_day_range (N : ℕ) (D : String) (dt : Date)
    (h : parseDate D = some dt) :
    (daysList D N).length = N ∧
    (∀ d, d < N → (daysList D N).getD d "" =
      formatDate (civilFromDays (daysFromCivil dt - (d : ℤ)))) ∧
    daysList "2024-01-03" 3 = ["2024-01-03", "2024-01-02", "2024-01-01"] := by
  refine ⟨by simp [daysList], ?_, by decide⟩
  intro d hd
  have h1 : (daysList D N).getD d "" = driverDay D d := by
    unfold daysList
    rw [List.getD_eq_getElem?_getD, List.getElem?_map,
      List.getElem?_range hd]
    rfl
  rw [h1]
  unfold driverDay dayStart
  rw [h]
  rfl

theorem C7_day_range_witness :
    parseDate "2024-01-03" = some ⟨2024, 1, 3⟩ ∧
    daysList "2024-01-03" 3 = ["2024-01-03", "2024-01-02", "2024-01-01"] :=
  ⟨by decide, (C7_day_range 3 "2024-01-03" ⟨2024, 1, 3⟩ (by decide)).2.2⟩

/-! ## OS-entropy (in)dependence of the seeded content

`random.seed(42)` fixes `Rng.stream` but not `Rng.urandom`.  Two runs
from the same seed therefore differ exactly by a replacement of the
`urandom` stream (`setU`), and everything below shows which parts of the
output survive such a replacement: all of it except the uuid4-derived
fields. -/

/-- Replace the OS-entropy stream of a state; the seeded stream and both
cursors are untouched. -/
def setU (g : Rng) (u : ℕ → ℕ) : Rng := { g with urandom := u }

/-- The record fields whose values are uuid4-derived (drawn from
`os.urandom`, hence not fixed by `random.seed`). -/
def UUID_KEYS : List String :=
  ["event_id", "merchant_id", "approval_code", "trace_number",
   "invoice_id", "ticket_id"]

/-- Drop the uuid4-derived fields of a record. -/
def scrub (r : Rec) : Rec := r.filter (fun p => ! UUID_KEYS.contains p.1)

theorem scrub_append (a b : Rec) : scrub (a ++ b) = scrub a ++ scrub b :=
  List.filter_append _ _

theorem nextNat_setU (g : Rng) (u : ℕ → ℕ) :
    nextNat (setU g u) = ((nextNat g).1, setU (nextNat g).2 u) := rfl

theorem drawNat_setU (g : Rng) (u : ℕ → ℕ) (n : ℕ) :
    drawNat (setU g u) n = ((drawNat g n).1, setU (drawNat g n).2 u) := rfl

theorem randint_setU (a b : ℤ) (g : Rng) (u : ℕ → ℕ) :
    randint a b (setU g u)
      = ((randint a b g).1, setU (randint a b g).2 u) := rfl

theorem choiceD_setU {α : Type} (xs : List α) (d : α) (g : Rng)
    (u : ℕ → ℕ) :
    choiceD xs d (setU g u)
      = ((choiceD xs d g).1, setU (choiceD xs d g).2 u) := rfl

theorem choicesW_setU {α : Type} (xs : List α) (ws : List ℕ) (d : α)
    (g : Rng) (u : ℕ → ℕ) :
    choicesW xs ws d (setU g u)
      = ((choicesW xs ws d g).1, setU (choicesW xs ws d g).2 u) := rfl

theorem fracQ_setU (g : Rng) (u : ℕ → ℕ) :
    fracQ (setU g u) = ((fracQ g).1, setU (fracQ g).2 u) := rfl

theorem uniformQ_setU (lo hi : ℚ) (g : Rng) (u : ℕ → ℕ) :
    uniformQ lo hi (setU g u)
      = ((uniformQ lo hi g).1, setU (uniformQ lo hi g).2 u) := rfl

theorem triangularQ_setU (low high mode : ℚ) (g : Rng) (u : ℕ → ℕ) :
    triangularQ low high mode (setU g u)
      = ((triangularQ low high mode g).1,
         setU (triangularQ low high mode g).2 u) := by
  unfold triangularQ
  rw [fracQ_setU]
  by_cases h0 : high = low
  · simp [h0]
  · by_cases h1 : (fracQ g).1 > (mode - low) / (high - low) <;>
      simp [h0, h1]

theorem rand_amount_setU (lo hi : ℚ) (p : Bool) (g : Rng) (u : ℕ → ℕ) :
    rand_amount lo hi p (setU g u)
      = ((rand_amount lo hi p g).1, setU (rand_amount lo hi p g).2 u) := by
  unfold rand_amount
  cases p
  · rw [uniformQ_setU]
    rfl
  · rw [triangularQ_setU]
    rfl

theorem charDraws_setU (ab : List Char) :
    ∀ (k : ℕ) (g : Rng) (u : ℕ → ℕ),
      charDraws ab k (setU g u)
        = ((charDraws ab k g).1, setU (charDraws ab k g).2 u) := by
  intro k
  induction k with
  | zero => intro g u; rfl
  | succ n ih =>
    intro g u
    simp only [charDraws, choiceD_setU, ih]

theorem nine_digits_setU (g : Rng) (u : ℕ → ℕ) :
    nine_digits (setU g u)
      = ((nine_digits g).1, setU (nine_digits g).2 u) := by
  unfold nine_digits
  rw [charDraws_setU]

theorem pan_last4_setU (g : Rng) (u : ℕ → ℕ) :
    pan_last4 (setU g u) = ((pan_last4 g).1, setU (pan_last4 g).2 u) := by
  unfold pan_last4
  rw [charDraws_setU]

theorem swift_bic_setU (g : Rng) (u : ℕ → ℕ) :
    swift_bic (setU g u) = ((swift_bic g).1, setU (swift_bic g).2 u) := by
  unfold swift_bic
  simp only [charDraws_setU, choiceD_setU]

theorem mask_iban_setU (g : Rng) (u : ℕ → ℕ) :
    mask_iban (setU g u) = ((mask_iban g).1, setU (mask_iban g).2 u) := by
  unfold mask_iban
  rw [charDraws_setU]

/-- The uuid4 **state** commutes with an entropy replacement (its value,
in contrast, depends on the replaced stream). -/
theorem uuid4_setU_snd (g : Rng) (u : ℕ → ℕ) :
    (uuid4 (setU g u)).2 = setU (uuid4 g).2 u := rfl

theorem rand_ts_for_day_setU (day : String) (g : Rng) (u : ℕ → ℕ) :
    rand_ts_for_day day (setU g u)
      = ((rand_ts_for_day day g).1, setU (rand_ts_for_day day g).2 u) := rfl

theorem base_record_setU_snd (day source : String) (g : Rng) (u : ℕ → ℕ) :
    (base_record day source (setU g u)).2
      = setU (base_record day source g).2 u := rfl

theorem scrub_base_record_setU (day source : String) (g : Rng)
    (u : ℕ → ℕ) :
    scrub (base_record day source (setU g u)).1
      = scrub (base_record day source g).1 := rfl

/-- `merchant` in explicit projection form (the record part). -/
theorem merchant_rec (g : Rng) :
    (merchant g).1 =
      [("merchant_id", .str (((uuid4 (choiceD MCCS ("", "") g).2).1).take 8)),
       ("merchant_name", .str (choiceD MERCHANT_NAMES ""
          (uuid4 (choiceD MCCS ("", "") g).2).2).1),
       ("merchant_country", .str (choiceD COUNTRIES ""
          (choiceD MERCHANT_NAMES ""
            (uuid4 (choiceD MCCS ("", "") g).2).2).2).1),
       ("mcc", .str (choiceD MCCS ("", "") g).1.1),
       ("category", .str (choiceD MCCS ("", "") g).1.2)] := rfl

theorem merchant_setU_snd (g : Rng) (u : ℕ → ℕ) :
    (merchant (setU g u)).2 = setU (merchant g).2 u := rfl

theorem scrub_merchant_setU (g : Rng) (u : ℕ → ℕ) :
    scrub (merchant (setU g u)).1 = scrub (merchant g).1 := by
  rw [merchant_rec, merchant_rec]
  simp [scrub, List.filter, UUID_KEYS, List.contains_cons, choiceD_setU,
    uuid4_setU_snd]

/-- `gen_erp` final state in projection form. -/
theorem gen_erp_snd (day : String) (g : Rng) :
    (gen_erp day g).2 =
      (choiceD ["batch_job", "integration", "analyst"] ""
        (choiceD ["HQ", "NYC", "SFO", "LON"] ""
          (choiceD ["debit", "credit"] ""
            (rand_amount 5 5000 false
              (choiceD GL_ACCOUNTS ""
                (choiceD ERP_JOURNALS ""
                  (base_record day "erp" g).2).2).2).2).2).2).2 := rfl

theorem gen_erp_setU_snd (day : String) (g : Rng) (u : ℕ → ℕ) :
    (gen_erp day (setU g u)).2 = setU (gen_erp day g).2 u := by
  rw [gen_erp_snd, gen_erp_snd]
  simp only [base_record_setU_snd, choiceD_setU, rand_amount_setU]

theorem scrub_gen_erp_setU (day : String) (g : Rng) (u : ℕ → ℕ) :
    scrub (gen_erp day (setU g u)).1 = scrub (gen_erp day g).1 := by
  rw [gen_erp_rec, gen_erp_rec, scrub_append, scrub_append,
    scrub_base_record_setU]
  simp only [base_record_setU_snd, choiceD_setU, rand_amount_setU]

/-! ### `gen_payments`: commutation of every stage with `setU` -/

theorem payG1_setU (day : String) (g : Rng) (u : ℕ → ℕ) :
    payG1 day (setU g u) = setU (payG1 day g) u := rfl

theorem payChannel_setU (day : String) (g : Rng) (u : ℕ → ℕ) :
    payChannel day (setU g u) = payChannel day g := rfl

theorem payG2_setU (day : String) (g : Rng) (u : ℕ → ℕ) :
    payG2 day (setU g u) = setU (payG2 day g) u := rfl

theorem payStatus_setU (day : String) (g : Rng) (u : ℕ → ℕ) :
    payStatus day (setU g u) = payStatus day g := rfl

theorem payG3_setU (day : String) (g : Rng) (u : ℕ → ℕ) :
    payG3 day (setU g u) = setU (payG3 day g) u := rfl

theorem payCardG4_setU (day : String) (g : Rng) (u : ℕ → ℕ) :
    payCardG4 day (setU g u) = setU (payCardG4 day g) u := by
  unfold payCardG4
  rw [payG3_setU, merchant_setU_snd]

theorem payCardAmt_setU (day : String) (g : Rng) (u : ℕ → ℕ) :
    payCardAmt day (setU g u) = payCardAmt day g := by
  unfold payCardAmt
  rw [payCardG4_setU, rand_amount_setU]

theorem payCardG5_setU (day : String) (g : Rng) (u : ℕ → ℕ) :
    payCardG5 day (setU g u) = setU (payCardG5 day g) u := by
  unfold payCardG5
  rw [payCardG4_setU, rand_amount_setU]

theorem payCardG6_setU (day : String) (g : Rng) (u : ℕ → ℕ) :
    payCardG6 day (setU g u) = setU (payCardG6 day g) u := by
  unfold payCardG6
  rw [payCardG5_setU, choiceD_setU]

theorem payCardG7_setU (day : String) (g : Rng) (u : ℕ → ℕ) :
    payCardG7 day (setU g u) = setU (payCardG7 day g) u := by
  unfold payCardG7
  rw [payCardG6_setU, pan_last4_setU]

theorem payCardG8_setU (day : String) (g : Rng) (u : ℕ → ℕ) :
    payCardG8 day (setU g u) = setU (payCardG8 day g) u := by
  unfold payCardG8
  rw [payCardG7_setU, choiceD_setU]

theorem payCardG9_setU (day : String) (g : Rng) (u : ℕ → ℕ) :
    payCardG9 day (setU g u) = setU (payCardG9 day g) u := by
  unfold payCardG9
  rw [payCardG8_setU, choiceD_setU]

theorem payApproval_setU_snd (day : String) (g : Rng) (u : ℕ → ℕ) :
    (payApproval day (setU g u)).2 = setU (payApproval day g).2 u := by
  unfold payApproval
  rw [payStatus_setU]
  by_cases h : payStatus day g ≠ "failed"
  · rw [if_pos h, if_pos h, payCardG9_setU, uuid4_setU_snd]
  · rw [if_neg h, if_neg h, payCardG9_setU]

theorem payDecline_setU_fst (day : String) (g : Rng) (u : ℕ → ℕ) :
    (payDecline day (setU g u)).1 = (payDecline day g).1 := by
  unfold payDecline
  rw [payStatus_setU]
  by_cases h : payStatus day g ≠ "failed"
  · rw [if_pos h, if_pos h]
  · rw [if_neg h, if_neg h]
    rw [payApproval_setU_snd, choiceD_setU]

theorem payDecline_setU_snd (day : String) (g : Rng) (u : ℕ → ℕ) :
    (payDecline day (setU g u)).2 = setU (payDecline day g).2 u := by
  unfold payDecline
  rw [payStatus_setU]
  by_cases h : payStatus day g ≠ "failed"
  · rw [if_pos h, if_pos h, payApproval_setU_snd]
  · rw [if_neg h, if_neg h]
    rw [payApproval_setU_snd, choiceD_setU]

theorem payAchAmt_setU (day : String) (g : Rng) (u : ℕ → ℕ) :
    payAchAmt day (setU g u) = payAchAmt day g := by
  unfold payAchAmt
  rw [payG3_setU, rand_amount_setU]

theorem payAchG4_setU (day : String) (g : Rng) (u : ℕ → ℕ) :
    payAchG4 day (setU g u) = setU (payAchG4 day g) u := by
  unfold payAchG4
  rw [payG3_setU, rand_amount_setU]

theorem payAchG5_setU (day : String) (g : Rng) (u : ℕ → ℕ) :
    payAchG5 day (setU g u) = setU (payAchG5 day g) u := by
  unfold payAchG5
  rw [payAchG4_setU, nine_digits_setU]

theorem payAchG6_setU (day : String) (g : Rng) (u : ℕ → ℕ) :
    payAchG6 day (setU g u) = setU (payAchG6 day g) u := by
  unfold payAchG6
  rw [payAchG5_setU, pan_last4_setU]

theorem payAchG7_setU (day : String) (g : Rng) (u : ℕ → ℕ) :
    payAchG7 day (setU g u) = setU (payAchG7 day g) u := by
  unfold payAchG7
  rw [payAchG6_setU, choiceD_setU]

theorem payWireAmt_setU (day : String) (g : Rng) (u : ℕ → ℕ) :
    payWireAmt day (setU g u) = payWireAmt day g := by
  unfold payWireAmt
  rw [payG3_setU, rand_amount_setU]

theorem payWireG4_setU (day : String) (g : Rng) (u : ℕ → ℕ) :
    payWireG4 day (setU g u) = setU (payWireG4 day g) u := by
  unfold payWireG4
  rw [payG3_setU, rand_amount_setU]

theorem payWireG5_setU (day : String) (g : Rng) (u : ℕ → ℕ) :
    payWireG5 day (setU g u) = setU (payWireG5 day g) u := by
  unfold payWireG5
  rw [payWireAmt_setU, payWireG4_setU, choiceD_setU]

theorem payWireG6_setU (day : String) (g : Rng) (u : ℕ → ℕ) :
    payWireG6 day (setU g u) = setU (payWireG6 day g) u := by
  unfold payWireG6
  rw [payWireG5_setU, swift_bic_setU]

theorem payWireG7_setU (day : String) (g : Rng) (u : ℕ → ℕ) :
    payWireG7 day (setU g u) = setU (payWireG7 day g) u := by
  unfold payWireG7
  rw [payWireG6_setU, mask_iban_setU]

theorem payZelleAmt_setU (day : String) (g : Rng) (u : ℕ → ℕ) :
    payZelleAmt day (setU g u) = payZelleAmt day g := by
  unfold payZelleAmt
  rw [payG3_setU, rand_amount_setU]

theorem payZelleG4_setU (day : String) (g : Rng) (u : ℕ → ℕ) :
    payZelleG4 day (setU g u) = setU (payZelleG4 day g) u := by
  unfold payZelleG4
  rw [payG3_setU, rand_amount_setU]

theorem payZelleG5_setU (day : String) (g : Rng) (u : ℕ → ℕ) :
    payZelleG5 day (setU g u) = setU (payZelleG5 day g) u := by
  unfold payZelleG5
  rw [payZelleAmt_setU, payZelleG4_setU, choiceD_setU]

theorem scrub_gen_payments_setU (day : String) (g : Rng) (u : ℕ → ℕ) :
    scrub (gen_payments day (setU g u)).1 = scrub (gen_payments day g).1 := by
  rw [gen_payments_rec day (setU g u), gen_payments_rec day g,
    payChannel_setU]
  by_cases h1 : payChannel day g = "card_auth" ∨
      payChannel day g = "card_settlement"
  · rw [if_pos h1, if_pos h1]
    unfold payCardRec payBase
    rw [scrub_append, scrub_append, scrub_append, scrub_append,
      scrub_append, scrub_append, payG3_setU, scrub_merchant_setU,
      scrub_base_record_setU]
    simp [scrub, List.filter, UUID_KEYS, List.contains_cons,
      payChannel_setU, payCardAmt_setU, payCardG5_setU, payCardG6_setU,
      payCardG7_setU, payCardG8_setU, choiceD_setU, pan_last4_setU,
      payDecline_setU_fst, payStatus_setU]
  · rw [if_neg h1, if_neg h1]
    by_cases h2 : payChannel day g = "ach_credit" ∨
        payChannel day g = "ach_debit"
    · rw [if_pos h2, if_pos h2]
      unfold payAchRec payBase
      rw [scrub_append, scrub_append, scrub_base_record_setU]
      simp [scrub, List.filter, UUID_KEYS, List.contains_cons,
        payChannel_setU, payAchAmt_setU, payAchG4_setU, payAchG5_setU,
        payAchG6_setU, nine_digits_setU, pan_last4_setU, choiceD_setU,
        payStatus_setU]
    · rw [if_neg h2, if_neg h2]
      by_cases h3 : payChannel day g = "wire_transfer"
      · rw [if_pos h3, if_pos h3]
        unfold payWireRec payBase
        rw [scrub_append, scrub_append, scrub_base_record_setU]
        simp [scrub, List.filter, UUID_KEYS, List.contains_cons,
          payWireAmt_setU, payWireG4_setU, payWireG5_setU, payWireG6_setU,
          payWireG7_setU, choiceD_setU, swift_bic_setU, mask_iban_setU,
          payStatus_setU]
      · rw [if_neg h3, if_neg h3]
        unfold payZelleRec payBase
        rw [scrub_append, scrub_append, scrub_base_record_setU]
        simp [scrub, List.filter, UUID_KEYS, List.contains_cons,
          payZelleAmt_setU, payZelleG4_setU, payZelleG5_setU,
          choiceD_setU, payStatus_setU]

theorem gen_payments_setU_snd (day : String) (g : Rng) (u : ℕ → ℕ) :
    (gen_payments day (setU g u)).2 = setU (gen_payments day g).2 u := by
  rw [gen_payments_eq day (setU g u), gen_payments_eq day g,
    payChannel_setU]
  by_cases h1 : payChannel day g = "card_auth" ∨
      payChannel day g = "card_settlement"
  · rw [if_pos h1, if_pos h1]
    exact payDecline_setU_snd day g u
  · rw [if_neg h1, if_neg h1]
    by_cases h2 : payChannel day g = "ach_credit" ∨
        payChannel day g = "ach_debit"
    · rw [if_pos h2, if_pos h2]
      show (uuid4 (payAchG7 day (setU g u))).2 = _
      rw [payAchG7_setU, uuid4_setU_snd]
    · rw [if_neg h2, if_neg h2]
      by_cases h3 : payChannel day g = "wire_transfer"
      · rw [if_pos h3, if_pos h3]
        show (choiceD [true, false] true (payWireG7 day (setU g u))).2 = _
        rw [payWireG7_setU, choiceD_setU]
      · rw [if_neg h3, if_neg h3]
        show (choiceD ["+1-202-555-0101", "friend@example.com", "$roommate"]
          "" (payZelleG5 day (setU g u))).2 = _
        rw [payZelleG5_setU, choiceD_setU]

/-! ### `gen_billing`: commutation of every stage with `setU` -/

theorem billG1_setU (day : String) (g : Rng) (u : ℕ → ℕ) :
    billG1 day (setU g u) = setU (billG1 day g) u := rfl

theorem billStatus_setU (day : String) (g : Rng) (u : ℕ → ℕ) :
    billStatus day (setU g u) = billStatus day g := rfl

theorem billG2_setU (day : String) (g : Rng) (u : ℕ → ℕ) :
    billG2 day (setU g u) = setU (billG2 day g) u := rfl

theorem billG3_setU (day : String) (g : Rng) (u : ℕ → ℕ) :
    billG3 day (setU g u) = setU (billG3 day g) u := rfl

theorem billIssued_setU (day : String) (g : Rng) (u : ℕ → ℕ) :
    billIssued day (setU g u) = billIssued day g := by
  unfold billIssued
  rw [billG3_setU, rand_ts_for_day_setU]

theorem billG4_setU (day : String) (g : Rng) (u : ℕ → ℕ) :
    billG4 day (setU g u) = setU (billG4 day g) u := by
  unfold billG4
  rw [billG3_setU, rand_ts_for_day_setU]

theorem billDueDays_setU (day : String) (g : Rng) (u : ℕ → ℕ) :
    billDueDays day (setU g u) = billDueDays day g := by
  unfold billDueDays
  rw [billG4_setU, choiceD_setU]

theorem billG5_setU (day : String) (g : Rng) (u : ℕ → ℕ) :
    billG5 day (setU g u) = setU (billG5 day g) u := by
  unfold billG5
  rw [billG4_setU, choiceD_setU]

theorem billAmt_setU (day : String) (g : Rng) (u : ℕ → ℕ) :
    billAmt day (setU g u) = billAmt day g := by
  unfold billAmt
  rw [billG5_setU, rand_amount_setU]

theorem billG6_setU (day : String) (g : Rng) (u : ℕ → ℕ) :
    billG6 day (setU g u) = setU (billG6 day g) u := by
  unfold billG6
  rw [billG5_setU, rand_amount_setU]

theorem billPaidPair_setU (day : String) (g : Rng) (u : ℕ → ℕ) :
    billPaidPair day (setU g u)
      = ((billPaidPair day g).1, setU (billPaidPair day g).2 u) := by
  unfold billPaidPair
  rw [billStatus_setU]
  by_cases h : billStatus day g = "paid" ∨ billStatus day g = "refunded"
  · rw [if_pos h, if_pos h, billAmt_setU, billG6_setU]
  · rw [if_neg h, if_neg h, billAmt_setU, billG6_setU]
    simp only [choiceD_setU]

theorem billEventType_setU (day : String) (g : Rng) (u : ℕ → ℕ) :
    billEventType day (setU g u) = billEventType day g := by
  unfold billEventType
  rw [billPaidPair_setU, choiceD_setU]

theorem billG8_setU (day : String) (g : Rng) (u : ℕ → ℕ) :
    billG8 day (setU g u) = setU (billG8 day g) u := by
  unfold billG8
  rw [billPaidPair_setU, choiceD_setU]

theorem billG9_setU (day : String) (g : Rng) (u : ℕ → ℕ) :
    billG9 day (setU g u) = setU (billG9 day g) u := by
  unfold billG9
  rw [billG8_setU, choiceD_setU]

theorem scrub_gen_billing_setU (day : String) (g : Rng) (u : ℕ → ℕ) :
    scrub (gen_billing day (setU g u)).1 = scrub (gen_billing day g).1 := by
  rw [gen_billing_rec, gen_billing_rec, scrub_append, scrub_append,
    scrub_base_record_setU]
  simp [scrub, List.filter, UUID_KEYS, List.contains_cons,
    billEventType_setU, billIssued_setU, billDueDays_setU, billStatus_setU,
    billAmt_setU, billPaidPair_setU, billG8_setU, billG9_setU,
    choiceD_setU, randint_setU]

/-- `gen_billing` final state in projection form. -/
theorem gen_billing_snd (day : String) (g : Rng) :
    (gen_billing day g).2 = (randint 1 5 (billG9 day g)).2 := rfl

theorem gen_billing_setU_snd (day : String) (g : Rng) (u : ℕ → ℕ) :
    (gen_billing day (setU g u)).2 = setU (gen_billing day g).2 u := by
  rw [gen_billing_snd, gen_billing_snd, billG9_setU, randint_setU]

/-! ### `gen_crm`: projection shorthands and `setU` commutation -/

def crmG1 (day : String) (g : Rng) : Rng := (base_record day "crm" g).2

def crmEventType (day : String) (g : Rng) : String :=
  (choicesW CRM_EVENTS [25, 10, 5, 20, 15, 5, 20] "" (crmG1 day g)).1

def crmG2 (day : String) (g : Rng) : Rng :=
  (choicesW CRM_EVENTS [25, 10, 5, 20, 15, 5, 20] "" (crmG1 day g)).2

def crmRisk (day : String) (g : Rng) : ℤ := (randint 1 99 (crmG2 day g)).1

def crmG3 (day : String) (g : Rng) : Rng := (randint 1 99 (crmG2 day g)).2

def crmKyc (day : String) (g : Rng) : String :=
  (choiceD ["pending", "verified", "refresh_due", "blocked"] ""
    (crmG3 day g)).1

def crmG4 (day : String) (g : Rng) : Rng :=
  (choiceD ["pending", "verified", "refresh_due", "blocked"] ""
    (crmG3 day g)).2

def crmPep (day : String) (g : Rng) : Bool :=
  (choiceD [false, false, false, true] false (crmG4 day g)).1

def crmG5 (day : String) (g : Rng) : Rng :=
  (choiceD [false, false, false, true] false (crmG4 day g)).2

def crmIp3 (day : String) (g : Rng) : ℤ := (randint 0 255 (crmG5 day g)).1

def crmG6 (day : String) (g : Rng) : Rng := (randint 0 255 (crmG5 day g)).2

def crmIp4 (day : String) (g : Rng) : ℤ := (randint 0 255 (crmG6 day g)).1

def crmG7 (day : String) (g : Rng) : Rng := (randint 0 255 (crmG6 day g)).2

def crmCountry (day : String) (g : Rng) : String :=
  (choiceD COUNTRIES "" (crmG7 day g)).1

def crmG8 (day : String) (g : Rng) : Rng :=
  (choiceD COUNTRIES "" (crmG7 day g)).2

/-- `gen_crm` in explicit projection form (the record part). -/
theorem gen_crm_rec (day : String) (g : Rng) :
    (gen_crm day g).1 =
      (base_record day "crm" g).1 ++
        [("event_type", .str (crmEventType day g)),
         ("amount", .num 0),
         ("kyc_status", .str (crmKyc day g)),
         ("risk_score", .num ((crmRisk day g : ℚ))),
         ("pep_flag", .bool (crmPep day g)),
         ("ip", .str ("192.168." ++ toString (crmIp3 day g).toNat ++ "."
            ++ toString (crmIp4 day g).toNat)),
         ("country", .str (crmCountry day g))] := rfl

/-- `gen_crm` final state in projection form. -/
theorem gen_crm_snd (day : String) (g : Rng) :
    (gen_crm day g).2 = crmG8 day g := rfl

theorem crmG1_setU (day : String) (g : Rng) (u : ℕ → ℕ) :
    crmG1 day (setU g u) = setU (crmG1 day g) u := rfl

theorem crmEventType_setU (day : String) (g : Rng) (u : ℕ → ℕ) :
    crmEventType day (setU g u) = crmEventType day g := rfl

theorem crmG2_setU (day : String) (g : Rng) (u : ℕ → ℕ) :
    crmG2 day (setU g u) = setU (crmG2 day g) u := rfl

theorem crmRisk_setU (day : String) (g : Rng) (u : ℕ → ℕ) :
    crmRisk day (setU g u) = crmRisk day g := rfl

theorem crmG3_setU (day : String) (g : Rng) (u : ℕ → ℕ) :
    crmG3 day (setU g u) = setU (crmG3 day g) u := rfl

theorem crmKyc_setU (day : String) (g : Rng) (u : ℕ → ℕ) :
    crmKyc day (setU g u) = crmKyc day g := rfl

theorem crmG4_setU (day : String) (g : Rng) (u : ℕ → ℕ) :
    crmG4 day (setU g u) = setU (crmG4 day g) u := rfl

theorem crmPep_setU (day : String) (g : Rng) (u : ℕ → ℕ) :
    crmPep day (setU g u) = crmPep day g := rfl

theorem crmG5_setU (day : String) (g : Rng) (u : ℕ → ℕ) :
    crmG5 day (setU g u) = setU (crmG5 day g) u := rfl

theorem crmIp3_setU (day : String) (g : Rng) (u : ℕ → ℕ) :
    crmIp3 day (setU g u) = crmIp3 day g := rfl

theorem crmG6_setU (day : String) (g : Rng) (u : ℕ → ℕ) :
    crmG6 day (setU g u) = setU (crmG6 day g) u := rfl

theorem crmIp4_setU (day : String) (g : Rng) (u : ℕ → ℕ) :
    crmIp4 day (setU g u) = crmIp4 day g := rfl

theorem crmG7_setU (day : String) (g : Rng) (u : ℕ → ℕ) :
    crmG7 day (setU g u) = setU (crmG7 day g) u := rfl

theorem crmCountry_setU (day : String) (g : Rng) (u : ℕ → ℕ) :
    crmCountry day (setU g u) = crmCountry day g := rfl

theorem crmG8_setU (day : String) (g : Rng) (u : ℕ → ℕ) :
    crmG8 day (setU g u) = setU (crmG8 day g) u := rfl

theorem scrub_gen_crm_setU (day : String) (g : Rng) (u : ℕ → ℕ) :
    scrub (gen_crm day (setU g u)).1 = scrub (gen_crm day g).1 := by
  rw [gen_crm_rec, gen_crm_rec, scrub_append, scrub_append,
    scrub_base_record_setU]
  simp [scrub, List.filter, UUID_KEYS, List.contains_cons,
    crmEventType_setU, crmKyc_setU, crmRisk_setU, crmPep_setU,
    crmIp3_setU, crmIp4_setU, crmCountry_setU]

theorem gen_crm_setU_snd (day : String) (g : Rng) (u : ℕ → ℕ) :
    (gen_crm day (setU g u)).2 = setU (gen_crm day g).2 u := by
  rw [gen_crm_snd, gen_crm_snd, crmG8_setU]

/-! ### `gen_support`: projection shorthands and `setU` commutation -/

def supG1 (day : String) (g : Rng) : Rng := (base_record day "support" g).2

def supCat (day : String) (g : Rng) : String :=
  (choiceD SUPPORT_CATEGORIES "" (supG1 day g)).1

def supG2 (day : String) (g : Rng) : Rng :=
  (choiceD SUPPORT_CATEGORIES "" (supG1 day g)).2

def supPri (day : String) (g : Rng) : String :=
  (choicesW SUPPORT_PRIORITIES [50, 30, 15, 5] "" (supG2 day g)).1

def supG3 (day : String) (g : Rng) : Rng :=
  (choicesW SUPPORT_PRIORITIES [50, 30, 15, 5] "" (supG2 day g)).2

def supStatus (day : String) (g : Rng) : String :=
  (choicesW ["open", "in_progress", "resolved", "closed"] [20, 30, 35, 15]
    "" (supG3 day g)).1

def supG4 (day : String) (g : Rng) : Rng :=
  (choicesW ["open", "in_progress", "resolved", "closed"] [20, 30, 35, 15]
    "" (supG3 day g)).2

def supG5 (day : String) (g : Rng) : Rng := (uuid4 (supG4 day g)).2

def supChan (day : String) (g : Rng) : String :=
  (choiceD ["phone", "email", "in_app", "chat"] "" (supG5 day g)).1

def supG6 (day : String) (g : Rng) : Rng :=
  (choiceD ["phone", "email", "in_app", "chat"] "" (supG5 day g)).2

/-- `gen_support` in explicit projection form (the record part). -/
theorem gen_support_rec (day : String) (g : Rng) :
    (gen_support day g).1 =
      (base_record day "support" g).1 ++
        [("event_type", .str ("ticket_"
            ++ (if supStatus day g = "resolved" ∨ supStatus day g = "closed"
              then "closed" else "opened"))),
         ("amount", .num 0),
         ("ticket_id", .str ("TCK-" ++ ((uuid4 (supG4 day g)).1).take 8)),
         ("category", .str (supCat day g)),
         ("priority", .str (supPri day g)),
         ("status", .str (supStatus day g)),
         ("channel", .str (supChan day g))] := rfl

/-- `gen_support` final state in projection form. -/
theorem gen_support_snd (day : String) (g : Rng) :
    (gen_support day g).2 = supG6 day g := rfl

theorem supCat_setU (day : String) (g : Rng) (u : ℕ → ℕ) :
    supCat day (setU g u) = supCat day g := rfl

theorem supPri_setU (day : String) (g : Rng) (u : ℕ → ℕ) :
    supPri day (setU g u) = supPri day g := rfl

theorem supStatus_setU (day : String) (g : Rng) (u : ℕ → ℕ) :
    supStatus day (setU g u) = supStatus day g := rfl

theorem supG4_setU (day : String) (g : Rng) (u : ℕ → ℕ) :
    supG4 day (setU g u) = setU (supG4 day g) u := rfl

theorem supG5_setU (day : String) (g : Rng) (u : ℕ → ℕ) :
    supG5 day (setU g u) = setU (supG5 day g) u := rfl

theorem supChan_setU (day : String) (g : Rng) (u : ℕ → ℕ) :
    supChan day (setU g u) = supChan day g := by
  unfold supChan
  rw [supG5_setU, choiceD_setU]

theorem supG6_setU (day : String) (g : Rng) (u : ℕ → ℕ) :
    supG6 day (setU g u) = setU (supG6 day g) u := by
  unfold supG6
  rw [supG5_setU, choiceD_setU]

theorem scrub_gen_support_setU (day : String) (g : Rng) (u : ℕ → ℕ) :
    scrub (gen_support day (setU g u)).1 = scrub (gen_support day g).1 := by
  rw [gen_support_rec, gen_support_rec, scrub_append, scrub_append,
    scrub_base_record_setU]
  simp [scrub, List.filter, UUID_KEYS, List.contains_cons,
    supStatus_setU, supCat_setU, supPri_setU, supChan_setU]

theorem gen_support_setU_snd (day : String) (g : Rng) (u : ℕ → ℕ) :
    (gen_support day (setU g u)).2 = setU (gen_support day g).2 u := by
  rw [gen_support_snd, gen_support_snd, supG6_setU]

/-! ### The dispatch table and the writer loops under `setU` -/

theorem genFor_scrub_setU (source day : String) (g : Rng) (u : ℕ → ℕ) :
    scrub (genFor source day (setU g u)).1
      = scrub (genFor source day g).1 := by
  unfold genFor GEN_BY_SOURCE
  by_cases h1 : source = "payments"
  · simp [h1, scrub_gen_payments_setU]
  · by_cases h2 : source = "billing"
    · simp [h1, h2, scrub_gen_billing_setU]
    · by_cases h3 : source = "crm"
      · simp [h1, h2, h3, scrub_gen_crm_setU]
      · by_cases h4 : source = "erp"
        · simp [h1, h2, h3, h4, scrub_gen_erp_setU]
        · by_cases h5 : source = "support"
          · simp [h1, h2, h3, h4, h5, scrub_gen_support_setU]
          · simp [h1, h2, h3, h4, h5]

theorem genFor_setU_snd (source day : String) (g : Rng) (u : ℕ → ℕ) :
    (genFor source day (setU g u)).2 = setU (genFor source day g).2 u := by
  unfold genFor GEN_BY_SOURCE
  by_cases h1 : source = "payments"
  · simp [h1, gen_payments_setU_snd]
  · by_cases h2 : source = "billing"
    · simp [h1, h2, gen_billing_setU_snd]
    · by_cases h3 : source = "crm"
      · simp [h1, h2, h3, gen_crm_setU_snd]
      · by_cases h4 : source = "erp"
        · simp [h1, h2, h3, h4, gen_erp_setU_snd]
        · by_cases h5 : source = "support"
          · simp [h1, h2, h3, h4, h5, gen_support_setU_snd]
          · simp [h1, h2, h3, h4, h5]

/-- A file with its uuid4-derived record fields dropped. -/
def scrubFile (f : FileOut) : FileOut := ⟨f.dir, f.name, f.lines.map scrub⟩

theorem hasKey_scrub (r : Rec) (k : String) (hk : k ∉ UUID_KEYS) :
    hasKey (scrub r) k = hasKey r k := by
  induction r with
  | nil => rfl
  | cons p rest ih =>
    obtain ⟨k', v⟩ := p
    by_cases hkk : k' = k
    · subst hkk
      simp [scrub, List.filter_cons, hk, hasKey]
    · by_cases hc : k' ∈ UUID_KEYS
      · simpa [scrub, List.filter_cons, hc, hasKey, hkk] using ih
      · simpa [scrub, List.filter_cons, hc, hasKey, hkk] using ih

theorem scrub_ensureDefaults (r : Rec) :
    scrub (ensureDefaults r) = ensureDefaults (scrub r) := by
  have ha := hasKey_scrub r "amount" (by decide)
  have he := hasKey_scrub r "event_type" (by decide)
  unfold ensureDefaults
  by_cases h1 : hasKey r "amount" = true
  · by_cases h2 : hasKey r "event_type" = true
    · simp [h1, h2, ha, he]
    · have h2' : hasKey r "event_type" = false := by simpa using h2
      simp [h1, h2', ha, he, scrub_append]
      rfl
  · have h1' : hasKey r "amount" = false := by simpa using h1
    have he2 : hasKey (r ++ [("amount", Json.num 0)]) "event_type"
        = hasKey r "event_type" := by
      rw [hasKey_append]
      simp [hasKey]
    have he2s : hasKey (scrub r ++ [("amount", Json.num 0)]) "event_type"
        = hasKey r "event_type" := by
      rw [hasKey_append, he]
      simp [hasKey]
    by_cases h2 : hasKey r "event_type" = true
    · simp [h1', ha, he2, he2s, h2, scrub_append]
      rfl
    · have h2' : hasKey r "event_type" = false := by simpa using h2
      simp [h1', ha, he2, he2s, h2', scrub_append]
      rfl

/-- One unfolding step of the record-writing loop. -/
theorem writeRecs_succ (gen : String → Rng → Rec × Rng) (day : String)
    (n : ℕ) (g : Rng) :
    writeRecs gen day (n + 1) g
      = (ensureDefaults (gen day g).1
            :: (writeRecs gen day n (gen day g).2).1,
         (writeRecs gen day n (gen day g).2).2) := rfl

theorem writeRecs_setU (source day : String) :
    ∀ (k : ℕ) (g : Rng) (u : ℕ → ℕ),
      ((writeRecs (genFor source) day k (setU g u)).1).map scrub
          = ((writeRecs (genFor source) day k g).1).map scrub ∧
      (writeRecs (genFor source) day k (setU g u)).2
          = setU (writeRecs (genFor source) day k g).2 u := by
  intro k
  induction k with
  | zero => intro g u; exact ⟨rfl, rfl⟩
  | succ n ih =>
    intro g u
    rw [writeRecs_succ, writeRecs_succ]
    constructor
    · simp only [List.map_cons]
      rw [scrub_ensureDefaults, scrub_ensureDefaults,
        genFor_scrub_setU, genFor_setU_snd]
      rw [(ih (genFor source day g).2 u).1]
    · rw [genFor_setU_snd]
      exact (ih (genFor source day g).2 u).2

/-- One unfolding step of the file-writing loop. -/
theorem writeFilesLoop_succ (gen : String → Rng → Rec × Rng)
    (day : String) (dirPath : List String) (epf n i rem : ℕ) (g : Rng) :
    writeFilesLoop gen day dirPath epf (n + 1) i rem g
      = (⟨dirPath, partName i, (writeRecs gen day (min epf rem) g).1⟩
            :: (writeFilesLoop gen day dirPath epf n (i + 1)
                (rem - min epf rem) (writeRecs gen day (min epf rem) g).2).1,
         (writeFilesLoop gen day dirPath epf n (i + 1) (rem - min epf rem)
            (writeRecs gen day (min epf rem) g).2).2) := rfl

theorem writeFilesLoop_setU (source day : String) (dirPath : List String)
    (epf : ℕ) :
    ∀ (nf i rem : ℕ) (g : Rng) (u : ℕ → ℕ),
      ((writeFilesLoop (genFor source) day dirPath epf nf i rem
          (setU g u)).1).map scrubFile
        = ((writeFilesLoop (genFor source) day dirPath epf nf i rem
            g).1).map scrubFile ∧
      (writeFilesLoop (genFor source) day dirPath epf nf i rem
          (setU g u)).2
        = setU (writeFilesLoop (genFor source) day dirPath epf nf i rem
            g).2 u := by
  intro nf
  induction nf with
  | zero => intro i rem g u; exact ⟨rfl, rfl⟩
  | succ n ih =>
    intro i rem g u
    rw [writeFilesLoop_succ, writeFilesLoop_succ]
    obtain ⟨hrecs, hstate⟩ := writeRecs_setU source day (min epf rem) g u
    constructor
    · simp only [List.map_cons, scrubFile]
      rw [hrecs, hstate]
      rw [(ih (i + 1) (rem - min epf rem)
        (writeRecs (genFor source) day (min epf rem) g).2 u).1]
    · rw [hstate]
      exact (ih (i + 1) (rem - min epf rem)
        (writeRecs (genFor source) day (min epf rem) g).2 u).2

theorem write_partition_setU (day source : String) (out : List String)
    (n epf : ℕ) (g : Rng) (u : ℕ → ℕ) :
    ((write_partition day source out n epf (setU g u)).1).map scrubFile
        = ((write_partition day source out n epf g).1).map scrubFile ∧
    (write_partition day source out n epf (setU g u)).2
        = setU (write_partition day source out n epf g).2 u := by
  unfold write_partition
  exact writeFilesLoop_setU source day _ epf _ 0 n g u

/-- One unfolding step of the per-day source loop. -/
theorem writeDaySources_cons (day : String) (out : List String)
    (total epf idx : ℕ) (source : String) (rest : List (ℕ × String))
    (g : Rng) :
    writeDaySources day out total epf ((idx, source) :: rest) g
      = ((write_partition day source out (sourceAlloc total idx) epf g).1
            ++ (writeDaySources day out total epf rest
              (write_partition day source out (sourceAlloc total idx) epf
                g).2).1,
         (writeDaySources day out total epf rest
            (write_partition day source out (sourceAlloc total idx) epf
              g).2).2) := rfl

theorem writeDaySources_setU (day : String) (out : List String)
    (total epf : ℕ) :
    ∀ (l : List (ℕ × String)) (g : Rng) (u : ℕ → ℕ),
      ((writeDaySources day out total epf l (setU g u)).1).map scrubFile
        = ((writeDaySources day out total epf l g).1).map scrubFile ∧
      (writeDaySources day out total epf l (setU g u)).2
        = setU (writeDaySources day out total epf l g).2 u := by
  intro l
  induction l with
  | nil => intro g u; exact ⟨rfl, rfl⟩
  | cons p rest ih =>
    intro g u
    obtain ⟨idx, source⟩ := p
    rw [writeDaySources_cons, writeDaySources_cons]
    obtain ⟨hfiles, hstate⟩ :=
      write_partition_setU day source out (sourceAlloc total idx) epf g u
    constructor
    · simp only [List.map_append]
      rw [hfiles, hstate]
      rw [(ih (write_partition day source out (sourceAlloc total idx) epf
        g).2 u).1]
    · rw [hstate]
      exact (ih (write_partition day source out (sourceAlloc total idx) epf
        g).2 u).2

/-- One unfolding step of the day loop. -/
theorem driverLoop_cons (endDay : String) (out : List String)
    (total epf d : ℕ) (ds : List ℕ) (g : Rng) :
    driverLoop endDay out total epf (d :: ds) g
      = ((writeDaySources (driverDay endDay d) out total epf SOURCES.enum
            g).1
            ++ (driverLoop endDay out total epf ds
              (writeDaySources (driverDay endDay d) out total epf
                SOURCES.enum g).2).1,
         (driverLoop endDay out total epf ds
            (writeDaySources (driverDay endDay d) out total epf
              SOURCES.enum g).2).2) := rfl

theorem driverLoop_setU (endDay : String) (out : List String)
    (total epf : ℕ) :
    ∀ (ds : List ℕ) (g : Rng) (u : ℕ → ℕ),
      ((driverLoop endDay out total epf ds (setU g u)).1).map scrubFile
        = ((driverLoop endDay out total epf ds g).1).map scrubFile ∧
      (driverLoop endDay out total epf ds (setU g u)).2
        = setU (driverLoop endDay out total epf ds g).2 u := by
  intro ds
  induction ds with
  | nil => intro g u; exact ⟨rfl, rfl⟩
  | cons d rest ih =>
    intro g u
    rw [driverLoop_cons, driverLoop_cons]
    obtain ⟨hfiles, hstate⟩ := writeDaySources_setU
      (driverDay endDay d) out total epf SOURCES.enum g u
    constructor
    · simp only [List.map_append]
      rw [hfiles, hstate]
      rw [(ih (writeDaySources (driverDay endDay d) out total epf
        SOURCES.enum g).2 u).1]
    · rw [hstate]
      exact (ih (writeDaySources (driverDay endDay d) out total epf
        SOURCES.enum g).2 u).2

/-- Replacing the OS-entropy stream changes none of the driver's output
except the uuid4-derived record fields. -/
theorem driverRun_setU (endDay : String) (days total epf : ℕ)
    (out : List String) (g : Rng) (u : ℕ → ℕ) :
    ((driverRun endDay days total epf out (setU g u)).1).map scrubFile
      = ((driverRun endDay days total epf out g).1).map scrubFile := by
  unfold driverRun
  exact (driverLoop_setU endDay out total epf (List.range days) g u).1

/-- C8 (counterexample): two runs from the same seed — identical seeded
stream and cursor, same day argument, one identical factory call — still
produce different records, because `uuid.uuid4()` reads `os.urandom`,
which `random.seed(42)` does not fix: the `event_id` fields differ. -/
theorem C8_counterexample :
    ¬ (∀ (g₁ g₂ : Rng) (day : String),
        (∀ i, g₁.stream i = g₂.stream i) → g₁.pos = g₂.pos →
        (gen_payments day g₁).1 = (gen_payments day g₂).1) := by
  intro h
  have heq := h ⟨fun _ => 0, 0, fun _ => 0, 0⟩
    ⟨fun _ => 0, 0, fun _ => 1, 0⟩ "2024-01-01" (fun _ => rfl) rfl
  have h1 : getVal (gen_payments "2024-01-01"
      ⟨fun _ => 0, 0, fun _ => 0, 0⟩).1 "event_id"
      = some (.str "00000000-0000-0000-0000-000000000000") := by decide
  have h2 : getVal (gen_payments "2024-01-01"
      ⟨fun _ => 0, 0, fun _ => 1, 0⟩).1 "event_id"
      = some (.str "11111111-1111-1111-1111-111111111111") := by decide
  rw [heq, h2] at h1
  simp at h1

/-- C8 (amended): for two runs with the same initial seeded
random-generator state (same seeded stream and both cursors), the same
arguments, and the same call sequence: (1) if the OS entropy read by
`uuid.uuid4()` also coincides, every generated record is identical; and
(2) unconditionally, the runs produce the same partition layout, file
names and line counts, and records identical except possibly in the six
uuid4-derived fields (event_id, merchant_id, approval_code, trace_number,
invoice_id, ticket_id), which `os.urandom` feeds and `random.seed` does
not fix. -/
theorem C8_determinism (endDay₁ endDay₂ : String)
    (days₁ days₂ total₁ total₂ epf₁ epf₂ : ℕ) (out₁ out₂ : List String)
    (g₁ g₂ : Rng)
    (hstream : ∀ i, g₁.stream i = g₂.stream i) (hpos : g₁.pos = g₂.pos)
    (hupos : g₁.upos = g₂.upos)
    (hday : endDay₁ = endDay₂) (hdays : days₁ = days₂)
    (htotal : total₁ = total₂) (hepf : epf₁ = epf₂) (hout : out₁ = out₂) :
    ((∀ i, g₁.urandom i = g₂.urandom i) →
      driverRun endDay₁ days₁ total₁ epf₁ out₁ g₁
        = driverRun endDay₂ days₂ total₂ epf₂ out₂ g₂) ∧
    ((driverRun endDay₁ days₁ total₁ epf₁ out₁ g₁).1).map scrubFile
      = ((driverRun endDay₂ days₂ total₂ epf₂ out₂ g₂).1).map scrubFile := by
  subst hday hdays htotal hepf hout
  constructor
  · intro hu
    have hg : g₁ = g₂ := by
      cases g₁
      cases g₂
      simp only [Rng.mk.injEq]
      exact ⟨funext hstream, hpos, funext hu, hupos⟩
    rw [hg]
  · have hg₂ : g₂ = setU g₁ g₂.urandom := by
      cases g₁
      cases g₂
      simp only [setU, Rng.mk.injEq]
      exact ⟨(funext hstream).symm, hpos.symm, trivial, hupos.symm⟩
    rw [hg₂, driverRun_setU]

theorem C8_determinism_witness :
    ((∀ i : ℕ, ((⟨fun _ => 0, 0, fun _ => 0, 0⟩ : Rng)).urandom i
        = ((⟨fun _ => 0, 0, fun _ => 1, 0⟩ : Rng)).urandom i) →
      driverRun "2024-01-03" 1 2 1 ["data"]
          ⟨fun _ => 0, 0, fun _ => 0, 0⟩
        = driverRun "2024-01-03" 1 2 1 ["data"]
          ⟨fun _ => 0, 0, fun _ => 1, 0⟩) ∧
    ((driverRun "2024-01-03" 1 2 1 ["data"]
        ⟨fun _ => 0, 0, fun _ => 0, 0⟩).1).map scrubFile
      = ((driverRun "2024-01-03" 1 2 1 ["data"]
          ⟨fun _ => 0, 0, fun _ => 1, 0⟩).1).map scrubFile :=
  C8_determinism "2024-01-03" "2024-01-03" 1 1 2 2 1 1 ["data"] ["data"]
    ⟨fun _ => 0, 0, fun _ => 0, 0⟩ ⟨fun _ => 0, 0, fun _ => 1, 0⟩
    (fun _ => rfl) rfl rfl rfl rfl rfl rfl rfl
